import Mathlib

/-!
# agent-lab: agent configuration model and conversation runtime

A shallow embedding of the logic of `src/constants/agentConstants.js`,
`src/components/agents/AgentForm.js` and `src/components/agents/AgentRunner.js`,
followed by theorems about it.

Conventions of the embedding.
* A JavaScript string is a Lean `String`; a field that may be absent
  (`undefined`/`null`) is an `Option`. The JavaScript idiom `x || d` on a
  string field is `orElse x d`: it yields `d` when `x` is absent or empty.
* A React effect or handler is a function from the state it reads to the
  state it writes. A user action is the state change of its handler followed
  by the effects whose dependency list names a changed cell, in source order.
* `JSON.parse` is a function passed in, returning `none` where it throws;
  `new Date()` is a clock reading passed in as an integer number of
  milliseconds.
-/

namespace AgentLab

/-! ## Provider registry (`agentConstants.js`) -/

/-- One entry of a provider's `models` array. -/
structure ModelEntry where
  id : String
  name : String
  deriving DecidableEq, Repr

/-- One entry of `MODEL_PROVIDERS_LITELLM`. -/
structure ProviderDescriptor where
  id : String
  name : String
  apiBase : Option String
  requiresApiKeyInEnv : String
  allowsCustomBase : Bool
  allowsCustomKey : Bool
  liteLlmModelPrefix : String
  models : List ModelEntry
  deriving DecidableEq, Repr

/-- The `openai` entry of the registry. -/
def providerOpenAI : ProviderDescriptor :=
  { id := "openai"
    name := "OpenAI"
    apiBase := some "https://api.openai.com/v1"
    requiresApiKeyInEnv := "OPENAI_API_KEY"
    allowsCustomBase := true
    allowsCustomKey := true
    liteLlmModelPrefix := "openai"
    models :=
      [ { id := "gpt-4o", name := "GPT-4o (Omni)" },
        { id := "o4-mini-2025-04-16", name := "o4 Mini" },
        { id := "o3-mini-2025-01-31", name := "o3 Mini" } ] }

/-- The `watsonx` entry of the registry: no default base, empty catalog. -/
def providerWatsonX : ProviderDescriptor :=
  { id := "watsonx"
    name := "IBM WatsonX (Coming Soon)"
    apiBase := none
    requiresApiKeyInEnv := "WATSONX_APIKEY"
    allowsCustomBase := true
    allowsCustomKey := true
    liteLlmModelPrefix := "watsonx"
    models := [] }

/-- The `deepinfra` entry of the registry. -/
def providerDeepInfra : ProviderDescriptor :=
  { id := "deepinfra"
    name := "DeepInfra"
    apiBase := some "https://api.deepinfra.com/v1/openai"
    requiresApiKeyInEnv := "DEEPINFRA_API_KEY"
    allowsCustomBase := false
    allowsCustomKey := true
    liteLlmModelPrefix := "deepinfra"
    models :=
      [ { id := "meta-llama/Llama-3.3-70B-Instruct-Turbo",
          name := "Llama 3.3 70B Instruct Turbo (DeepInfra)" },
        { id := "meta-llama/Meta-Llama-3-70B-Instruct",
          name := "Llama 3 70B Instruct (DeepInfra)" },
        { id := "meta-llama/Llama-4-Maverick-17B-128E-Instruct-FP8",
          name := "Llama 4 Maverick 17Bx128E Instruct FP8" },
        { id := "meta-llama/Llama-4-Scout-17B-16E-Instruct",
          name := "Llama 4 Scout 17Bx16E Instruct FP8" },
        { id := "mistralai/Mistral-7B-Instruct-v0.1",
          name := "Mistral 7B Instruct (DeepInfra)" } ] }

/-- The registry, in source order. -/
def MODEL_PROVIDERS_LITELLM : List ProviderDescriptor :=
  [providerOpenAI, providerWatsonX, providerDeepInfra]

def DEFAULT_LITELLM_PROVIDER_ID : String := "openai"

/-- The function `getLiteLLMProviderConfig`: `Array.prototype.find` by id. -/
def getLiteLLMProviderConfig (providerId : String) : Option ProviderDescriptor :=
  MODEL_PROVIDERS_LITELLM.find? (fun p => p.id == providerId)

/-- The expression `x?.models[0]?.id || d` for an optional descriptor. -/
def firstModelIdOr (p : Option ProviderDescriptor) (d : String) : String :=
  match p with
  | none => d
  | some c =>
    match c.models.head? with
    | none => d
    | some m => if m.id = "" then d else m.id

/-- The constant `DEFAULT_LITELLM_BASE_MODEL_ID`:
`defaultProvider?.models[0]?.id || "gpt-3.5-turbo"`. -/
def DEFAULT_LITELLM_BASE_MODEL_ID : String :=
  firstModelIdOr (getLiteLLMProviderConfig DEFAULT_LITELLM_PROVIDER_ID) "gpt-3.5-turbo"

/-- The ids of a provider's catalog, in order. -/
def catalogIds (p : ProviderDescriptor) : List String :=
  p.models.map (fun m => m.id)

/-- The test `models.some(m => m.id === b)`. -/
def modelsSome (p : ProviderDescriptor) (b : String) : Bool :=
  p.models.any (fun m => m.id == b)

/-! ## JavaScript string helpers -/

/-- The idiom `x || d` on an optional string: absent and empty are falsy. -/
def orElse (x : Option String) (d : String) : String :=
  match x with
  | none => d
  | some s => if s = "" then d else s

/-- Truthiness of an optional string. -/
def truthy (x : Option String) : Bool :=
  match x with
  | none => false
  | some s => s != ""

/-- The ECMAScript `WhiteSpace` and `LineTerminator` code points, which are
what `\s` matches and what `trim` strips. -/
def isJsWhitespace (c : Char) : Bool :=
  c.val = 0x09 || c.val = 0x0A || c.val = 0x0B || c.val = 0x0C || c.val = 0x0D ||
  c.val = 0x20 || c.val = 0xA0 || c.val = 0x1680 ||
  (0x2000 ≤ c.val && c.val ≤ 0x200A) ||
  c.val = 0x2028 || c.val = 0x2029 || c.val = 0x202F || c.val = 0x205F ||
  c.val = 0x3000 || c.val = 0xFEFF

/-- The method `String.prototype.trim` on the list of characters. -/
def jsTrimChars (cs : List Char) : List Char :=
  ((cs.dropWhile isJsWhitespace).reverse.dropWhile isJsWhitespace).reverse

/-- The method `String.prototype.trim`. -/
def jsTrim (s : String) : String :=
  String.mk (jsTrimChars s.data)

/-- The method `String.prototype.startsWith`. -/
def startsWith (s pre : String) : Bool :=
  pre.data.isPrefixOf s.data

/-- The method `String.prototype.substring(n)` with one argument. -/
def substringFrom (s : String) (n : Nat) : String :=
  String.mk (s.data.drop n)

/-- The method `toLowerCase` on the ASCII letters. `validateAgentName` calls
it only after the name has passed `AGENT_NAME_REGEX`, so only on ASCII
names, where this is the whole of the method. -/
def toLowerCase (s : String) : String :=
  String.mk (s.data.map Char.toLower)

/-! ## Agent name validation (`AgentForm.js`, lines 26-46) -/

/-- The class `[a-zA-Z_]`. -/
def isNameStart (c : Char) : Bool :=
  ('a' ≤ c && c ≤ 'z') || ('A' ≤ c && c ≤ 'Z') || c = '_'

/-- The class `[a-zA-Z0-9_]`. -/
def isNameChar (c : Char) : Bool :=
  isNameStart c || ('0' ≤ c && c ≤ '9')

/-- The test `AGENT_NAME_REGEX.test(name)` for `/^[a-zA-Z_][a-zA-Z0-9_]*$/`.
Without the `m` flag `$` matches only at the end of the input. -/
def AGENT_NAME_REGEX_test (name : String) : Bool :=
  match name.data with
  | [] => false
  | c :: cs => isNameStart c && cs.all isNameChar

def RESERVED_AGENT_NAME : String := "user"

/-- The function `validateAgentName`: `none` is the source's `null` (no
error), `some msg` the error message. -/
def validateAgentName (name : String) : Option String :=
  if name = "" ∨ jsTrim name = "" then
    some "Agent Name is required."
  else if name.data.any isJsWhitespace then
    some "Agent Name cannot contain spaces."
  else if ¬ AGENT_NAME_REGEX_test name then
    some "Agent Name must start with a letter or underscore, and can only contain letters, digits, or underscores."
  else if toLowerCase name = RESERVED_AGENT_NAME then
    some "Agent Name cannot be \"user\" as it\x27s a reserved name."
  else if name.length > 63 then
    some "Agent Name is too long (max 63 characters)."
  else
    none

/-! ## Form state (`AgentForm.js`, lines 49-88) -/

/-- A selected tool, with the fields the form logic reads. -/
structure ToolRef where
  id : String
  type : Option String
  sourceRepoUrl : Option String
  deriving DecidableEq, Repr

/-- The members of a child agent object other than its own children. A
member that is absent from the object is `none`. The member `id` is the
client-side identifier the form gives a child; it is not part of the
configuration sent to the backend. -/
structure ChildProps where
  id : Option String := none
  name : Option String := none
  description : Option String := none
  agentType : Option String := none
  selectedProviderId : Option String := none
  litellm_model_string : Option String := none
  litellm_api_base : Option String := none
  litellm_api_key : Option String := none
  instruction : Option String := none
  tools : Option (List ToolRef) := none
  enableCodeExecution : Option Bool := none
  usedCustomRepoUrls : Option (List String) := none
  outputKey : Option String := none
  maxLoops : Option Nat := none
  deriving DecidableEq, Repr

/-- An entry of the `childAgents` array: the members of the object and its
own `childAgents` (empty when the member is absent). -/
structure ChildAgent where
  props : ChildProps
  childAgents : List ChildAgent
  deriving Repr

mutual
/-- Equality of child agents is decidable. -/
def ChildAgent.decEq : (a b : ChildAgent) → Decidable (a = b)
  | ⟨p1, c1⟩, ⟨p2, c2⟩ =>
    if hp : p1 = p2 then
      match ChildAgent.decEqList c1 c2 with
      | isTrue hc => isTrue (by subst hp hc; rfl)
      | isFalse hc => isFalse (by intro h; injection h with _ h2; exact hc h2)
    else isFalse (by intro h; injection h with h1 _; exact hp h1)
/-- Equality of lists of child agents is decidable. -/
def ChildAgent.decEqList : (a b : List ChildAgent) → Decidable (a = b)
  | [], [] => isTrue rfl
  | [], _ :: _ => isFalse (by intro h; cases h)
  | _ :: _, [] => isFalse (by intro h; cases h)
  | x :: xs, y :: ys =>
    match ChildAgent.decEq x y with
    | isTrue hx =>
      match ChildAgent.decEqList xs ys with
      | isTrue hxs => isTrue (by subst hx hxs; rfl)
      | isFalse hxs => isFalse (by intro h; injection h with _ h2; exact hxs h2)
    | isFalse hx => isFalse (by intro h; injection h with h1 _; exact hx h1)
end

instance : DecidableEq ChildAgent := ChildAgent.decEq

/-- The `initialData` prop, with the fields the form logic reads. -/
structure InitialData where
  name : Option String := none
  description : Option String := none
  agentType : Option String := none
  selectedProviderId : Option String := none
  litellm_model_string : Option String := none
  litellm_api_base : Option String := none
  litellm_api_key : Option String := none
  instruction : Option String := none
  tools : Option (List ToolRef) := none
  enableCodeExecution : Option Bool := none
  usedCustomRepoUrls : Option (List String) := none
  outputKey : Option String := none
  maxLoops : Option Nat := none
  childAgents : List ChildAgent := []
  platform : Option String := none
  deriving DecidableEq, Repr

/-- The `useState` cells of the form that the model, tool and submit logic
read and write. -/
structure FormState where
  name : String
  description : String
  agentType : String
  selectedProviderId : String
  selectedBaseModelId : String
  inputtedModelString : String
  litellmApiBase : String
  litellmApiKey : String
  instruction : String
  selectedTools : List ToolRef
  enableCodeExecution : Bool
  usedCustomRepoUrls : List String
  outputKey : String
  deriving DecidableEq, Repr

def AGENT_TYPES : List String := ["Agent", "SequentialAgent", "ParallelAgent", "LoopAgent"]

/-- The test `id === 'custom' || id === 'openai_compatible'`. -/
def isFreeFormProvider (id : String) : Bool :=
  id == "custom" || id == "openai_compatible"

/-! ## Initial model-address resolution (`AgentForm.js`, lines 101-143) -/

/-- The result of lines 101-129: the provider id and the base model name
with which the catalog lookup of lines 132-143 is entered. -/
structure Inferred where
  initialSelectedProvider : String
  initialBaseModelName : String
  deriving DecidableEq, Repr

/-- The predicate of the `find` on line 107:
`p.liteLlmModelPrefix && fullModelStr.startsWith(p.liteLlmModelPrefix + "/")`. -/
def prefixMatches (fullModelStr : String) (p : ProviderDescriptor) : Bool :=
  p.liteLlmModelPrefix != "" && startsWith fullModelStr (p.liteLlmModelPrefix ++ "/")

/-- Lines 101-129: provider inference from the full model string. -/
def inferInitial (d : InitialData) : Inferred :=
  let initialSelectedProvider := orElse d.selectedProviderId DEFAULT_LITELLM_PROVIDER_ID
  let initialBaseModelName := orElse d.litellm_model_string DEFAULT_LITELLM_BASE_MODEL_ID
  if !truthy d.selectedProviderId && truthy d.litellm_model_string then
    let fullModelStr := orElse d.litellm_model_string ""
    match MODEL_PROVIDERS_LITELLM.find? (prefixMatches fullModelStr) with
    | some foundProvider =>
      { initialSelectedProvider := foundProvider.id
        initialBaseModelName :=
          substringFrom fullModelStr (foundProvider.liteLlmModelPrefix.length + 1) }
    | none =>
      if startsWith fullModelStr "azure/" then
        { initialSelectedProvider := "azure"
          initialBaseModelName := substringFrom fullModelStr "azure/".length }
      else if initialSelectedProvider != "custom" &&
          !MODEL_PROVIDERS_LITELLM.any (fun p => p.id == initialSelectedProvider) then
        { initialSelectedProvider := "custom"
          initialBaseModelName := fullModelStr }
      else
        { initialSelectedProvider := initialSelectedProvider
          initialBaseModelName := initialBaseModelName }
  else
    { initialSelectedProvider := initialSelectedProvider
      initialBaseModelName := initialBaseModelName }

/-- The three model cells written by lines 130-143. -/
structure ModelSelection where
  selectedProviderId : String
  selectedBaseModelId : String
  inputtedModelString : String
  deriving DecidableEq, Repr

/-- Lines 130-143: the catalog lookup. With `providerConf` undefined both
`providerConf?.id === ...` and `providerConf?.models.some(...)` are falsy. -/
def resolveCatalog (i : Inferred) : ModelSelection :=
  let providerConf := getLiteLLMProviderConfig i.initialSelectedProvider
  let isFree : Bool :=
    match providerConf with
    | none => false
    | some c => isFreeFormProvider c.id
  let known : Bool :=
    match providerConf with
    | none => false
    | some c => modelsSome c i.initialBaseModelName
  if isFree then
    { selectedProviderId := i.initialSelectedProvider
      selectedBaseModelId := ""
      inputtedModelString := i.initialBaseModelName }
  else if known then
    { selectedProviderId := i.initialSelectedProvider
      selectedBaseModelId := i.initialBaseModelName
      inputtedModelString := i.initialBaseModelName }
  else
    let firstModelOfProvider := firstModelIdOr providerConf ""
    { selectedProviderId := i.initialSelectedProvider
      selectedBaseModelId := firstModelOfProvider
      inputtedModelString := firstModelOfProvider }

/-- Initial model-address resolution: the three model cells the
initialisation effect writes on lines 101-143. The provider effect of the
same commit can write the two model cells again; the cells the form holds
once mounted are those of `mountForm`. -/
def resolveInitialModel (d : InitialData) : ModelSelection :=
  resolveCatalog (inferInitial d)

/-- The value `finalModelStringForSubmit` of `handleSubmit` (lines 284-289):
the model address the form submits for given model cells. -/
def finalModelStringForSubmit (selectedProviderId selectedBaseModelId
    inputtedModelString : String) : String :=
  if isFreeFormProvider selectedProviderId then jsTrim inputtedModelString
  else selectedBaseModelId

/-- The `filter(...).map(...)` that collects the custom repository URLs of a
tool list (lines 74, 154 and 231-233). -/
def customRepoUrls (tools : List ToolRef) : List String :=
  tools.filterMap (fun t =>
    if t.type = some "custom_repo" then
      match t.sourceRepoUrl with
      | some u => if u = "" then none else some u
      | none => none
    else none)

/-- The values the initialisation effect (lines 95-164) writes to the cells
of `FormState`. The other two effects run in the same commit; the cells the
mounted form settles at are `mountForm`. -/
def initFromData (d : InitialData) : FormState :=
  let m := resolveInitialModel d
  let initialEnableCodeExec := d.enableCodeExecution.getD false
  { name := orElse d.name ""
    description := orElse d.description ""
    agentType := orElse d.agentType "Agent"
    selectedProviderId := m.selectedProviderId
    selectedBaseModelId := m.selectedBaseModelId
    inputtedModelString := m.inputtedModelString
    litellmApiBase := orElse d.litellm_api_base ""
    litellmApiKey := orElse d.litellm_api_key ""
    instruction := orElse d.instruction ""
    enableCodeExecution := initialEnableCodeExec
    selectedTools := if initialEnableCodeExec then [] else d.tools.getD []
    usedCustomRepoUrls :=
      if initialEnableCodeExec then []
      else
        match d.usedCustomRepoUrls with
        | some us => us
        | none => customRepoUrls (d.tools.getD [])
    outputKey := orElse d.outputKey "" }

/-! ## Provider switch (`AgentForm.js`, lines 166-210) -/

/-- The effect on `selectedProviderId` (lines 167-200), run on the cells of
`st` once the initial data has been processed (the guard of line 169 has
passed). An id with no registry entry leaves every cell as it is. -/
def providerEffect (d : InitialData) (st : FormState) : FormState :=
  match getLiteLLMProviderConfig st.selectedProviderId with
  | none => st
  | some providerConf =>
    let st1 : FormState :=
      if isFreeFormProvider providerConf.id then
        { st with
          selectedBaseModelId := ""
          inputtedModelString :=
            if d.selectedProviderId ≠ some "custom" ∧
                d.selectedProviderId ≠ some "openai_compatible" then ""
            else orElse d.litellm_model_string "" }
      else
        match providerConf.models with
        | firstModel :: _ =>
          let firstModelId := firstModel.id
          let currentBaseIsValidForNewProvider :=
            modelsSome providerConf st.selectedBaseModelId
          let newBaseModel :=
            if currentBaseIsValidForNewProvider then st.selectedBaseModelId
            else firstModelId
          { st with selectedBaseModelId := newBaseModel, inputtedModelString := newBaseModel }
        | [] => { st with selectedBaseModelId := "", inputtedModelString := "" }
    { st1 with
      litellmApiBase :=
        if providerConf.allowsCustomBase then st.litellmApiBase
        else orElse providerConf.apiBase ""
      litellmApiKey := "" }

/-- The effect on `selectedBaseModelId` (lines 203-210), once the initial
data has been processed. -/
def baseModelEffect (st : FormState) : FormState :=
  if st.selectedProviderId ≠ "custom" ∧ st.selectedProviderId ≠ "openai_compatible" ∧
      st.selectedBaseModelId ≠ "" then
    { st with inputtedModelString := st.selectedBaseModelId }
  else st

/-- A provider switch: the `onChange` of the provider select (line 462) sets
`selectedProviderId`, after which the two effects above run on the new
cells. -/
def switchProvider (d : InitialData) (st : FormState) (providerId : String) : FormState :=
  baseModelEffect (providerEffect d { st with selectedProviderId := providerId })

/-- The base-model cell after the provider effect, as a function of the new
provider id and the cell before. -/
def switchedBaseModel (providerId base : String) : String :=
  match getLiteLLMProviderConfig providerId with
  | none => base
  | some providerConf =>
    if isFreeFormProvider providerConf.id then ""
    else
      match providerConf.models with
      | firstModel :: _ => if modelsSome providerConf base then base else firstModel.id
      | [] => ""

/-! ## Tools and code execution (`AgentForm.js`, lines 213-235) -/

/-- The handler `handleCodeExecutionChange`, on the checkbox value. -/
def handleCodeExecutionChange (isChecked : Bool) (st : FormState) : FormState :=
  let st1 := { st with enableCodeExecution := isChecked }
  if isChecked then { st1 with selectedTools := [], usedCustomRepoUrls := [] }
  else st1

/-- The handler `handleUsedCustomRepoUrlsChange`. -/
def handleUsedCustomRepoUrlsChange (urls : List String) (st : FormState) : FormState :=
  { st with usedCustomRepoUrls := urls }

/-- The handler `handleSelectedToolsChange`. -/
def handleSelectedToolsChange (newTools : List ToolRef) (st : FormState) : FormState :=
  { st with
    selectedTools := newTools
    enableCodeExecution :=
      if newTools.length > 0 ∧ st.enableCodeExecution = true then false
      else st.enableCodeExecution
    usedCustomRepoUrls := (customRepoUrls newTools).eraseDups }

/-- The two user actions on the tools section of the form. -/
inductive ToolEvent where
  | codeExecutionChange (isChecked : Bool)
  | selectedToolsChange (newTools : List ToolRef)
  deriving Repr

/-- One user action applied to the form state. -/
def applyToolEvent (st : FormState) : ToolEvent → FormState
  | .codeExecutionChange isChecked => handleCodeExecutionChange isChecked st
  | .selectedToolsChange newTools => handleSelectedToolsChange newTools st

/-- A sequence of user actions applied in order. -/
def applyToolEvents (st : FormState) (evs : List ToolEvent) : FormState :=
  evs.foldl applyToolEvent st

/-- The state predicate: code execution enabled implies no selected tool. -/
def ToolsExclusive (st : FormState) : Prop :=
  st.enableCodeExecution = true → st.selectedTools = []

/-! ## Child agents and submit (`AgentForm.js`, lines 159 and 268-420) -/

/-- The cells of the form: those of `FormState` together with the child-agent
cells. -/
structure AgentFormState extends FormState where
  childAgents : List ChildAgent
  maxLoops : Nat
  editingChild : Option ChildAgent
  deriving Repr

/-- The idiom `x || null` on an optional string. -/
def orNull (x : Option String) : Option String :=
  if truthy x then x else none

/-- Line 159: every child of the initial data keeps its `id` or receives a
generated one. `uuidv4 i` is the identifier generated for the child at
position `i`. -/
def initChildAgents (uuidv4 : Nat → String) (cs : List ChildAgent) : List ChildAgent :=
  cs.mapIdx (fun i ca =>
    { ca with props := { ca.props with id := some (orElse ca.props.id (uuidv4 i)) } })

/-- The initialisation effect (lines 95-164) on all cells of the form. -/
def initFormState (uuidv4 : Nat → String) (d : InitialData) : AgentFormState :=
  { toFormState := initFromData d
    childAgents := initChildAgents uuidv4 d.childAgents
    maxLoops :=
      match d.maxLoops with
      | none => 3
      | some n => if n = 0 then 3 else n
    editingChild := none }

/-- The handler `handleDeleteChildAgent`; `confirmed` is the answer of
`window.confirm`. -/
def handleDeleteChildAgent (confirmed : Bool) (childId : String) (st : AgentFormState) :
    AgentFormState :=
  if confirmed then
    { st with childAgents := st.childAgents.filter (fun c => c.props.id ≠ some childId) }
  else st

/-- The handler `handleExistingAgentSelected`; `uuid` is the value of
`uuidv4()`. -/
def handleExistingAgentSelected (uuid : String) (selectedAgentFullConfig : ChildAgent)
    (st : AgentFormState) : AgentFormState :=
  let c := selectedAgentFullConfig.props
  let newChildAgent : ChildAgent :=
    { selectedAgentFullConfig with
      props :=
        { c with
          id := some uuid
          agentType := some (orElse c.agentType "Agent")
          selectedProviderId := some (orElse c.selectedProviderId DEFAULT_LITELLM_PROVIDER_ID)
          litellm_model_string :=
            some (orElse c.litellm_model_string DEFAULT_LITELLM_BASE_MODEL_ID)
          litellm_api_base := orNull c.litellm_api_base
          litellm_api_key := orNull c.litellm_api_key
          instruction := some (orElse c.instruction "")
          tools := some (c.tools.getD [])
          enableCodeExecution := some (c.enableCodeExecution.getD false)
          usedCustomRepoUrls := some (c.usedCustomRepoUrls.getD [])
          outputKey := some (orElse c.outputKey "")
          maxLoops := some (match c.maxLoops with
            | none => 3
            | some n => if n = 0 then 3 else n) } }
  { st with childAgents := st.childAgents ++ [newChildAgent] }

/-- The handler `handleSaveChildAgent`; `uuid` is the value of `uuidv4()`,
used when a new child is added. -/
def handleSaveChildAgent (uuid : String) (childDataFromForm : ChildAgent)
    (st : AgentFormState) : AgentFormState :=
  let editingId : Option String :=
    match st.editingChild with
    | none => none
    | some e => orNull e.props.id
  match editingId with
  | some eid =>
    { st with
      childAgents := st.childAgents.map (fun c =>
        if c.props.id = some eid then
          { childDataFromForm with props := { childDataFromForm.props with id := some eid } }
        else c)
      editingChild := none }
  | none =>
    { st with
      childAgents := st.childAgents ++
        [{ childDataFromForm with
           props :=
             { childDataFromForm.props with
               id := some uuid
               agentType := some (orElse childDataFromForm.props.agentType "Agent") } }]
      editingChild := none }

/-- The object `agentDataToSubmit` handed to `onSubmit`. A member that the
handler does not set is `none`. -/
structure AgentData where
  name : String
  description : String
  agentType : String
  instruction : String
  tools : List ToolRef
  enableCodeExecution : Bool
  usedCustomRepoUrls : List String
  selectedProviderId : String
  litellm_model_string : String
  litellm_api_base : Option String
  litellm_api_key : Option String
  outputKey : Option String
  maxLoops : Option Nat
  childAgents : Option (List ChildAgent)
  platform : Option String
  deriving DecidableEq, Repr

/-- How `handleSubmit` ends: with a name error, with a form error, or with
the call `onSubmit(agentDataToSubmit)`. -/
inductive SubmitResult where
  | nameError (message : String)
  | formError (message : String)
  | submitted (data : AgentData)
  deriving DecidableEq, Repr

/-- The test `agentType === 'SequentialAgent' || agentType === 'ParallelAgent'`. -/
def isCompositeType (agentType : String) : Bool :=
  agentType == "SequentialAgent" || agentType == "ParallelAgent"

/-- The test `agentType === 'Agent' || agentType === 'LoopAgent'`. -/
def isModelType (agentType : String) : Bool :=
  agentType == "Agent" || agentType == "LoopAgent"

/-- The callback of `childAgents.map` on lines 328-343: the member `id` of
the child is removed and its provider and model string are defaulted. The
other members, the child's own `childAgents` among them, are copied as they
are. -/
def submitChild (ca : ChildAgent) : ChildAgent :=
  { ca with
    props :=
      { ca.props with
        id := none
        selectedProviderId :=
          some (orElse ca.props.selectedProviderId DEFAULT_LITELLM_PROVIDER_ID)
        litellm_model_string :=
          some (orElse ca.props.litellm_model_string DEFAULT_LITELLM_BASE_MODEL_ID) } }

/-- The callback of `tools.map` on lines 352-358. -/
def adkReadyTool (tool : ToolRef) : ToolRef :=
  if tool.type = some "gofannon" ∨ tool.type = some "custom_repo" then
    { tool with sourceRepoUrl := none, type := none }
  else tool

/-- The member `litellm_api_base` of the submitted object (lines 308-310). -/
def submitApiBase (st : FormState) : Option String :=
  match getLiteLLMProviderConfig st.selectedProviderId with
  | none => none
  | some currentProviderConfig =>
    if currentProviderConfig.allowsCustomBase = true ∧ jsTrim st.litellmApiBase ≠ "" then
      some (jsTrim st.litellmApiBase)
    else orNull currentProviderConfig.apiBase

/-- The member `litellm_api_key` of the submitted object (lines 314-316). -/
def submitApiKey (st : FormState) : Option String :=
  match getLiteLLMProviderConfig st.selectedProviderId with
  | none => none
  | some currentProviderConfig =>
    if currentProviderConfig.allowsCustomKey = true ∧ jsTrim st.litellmApiKey ≠ "" then
      some (jsTrim st.litellmApiKey)
    else none

/-- The object `agentDataToSubmit` as `handleSubmit` has built it when it
calls `onSubmit` (lines 296-359). -/
def agentDataToSubmit (d : InitialData) (st : AgentFormState) : AgentData :=
  let trimmedOutputKey := jsTrim st.outputKey
  { name := st.name
    description := st.description
    agentType := st.agentType
    instruction := st.instruction
    tools := (if st.enableCodeExecution then [] else st.selectedTools).map adkReadyTool
    enableCodeExecution := st.enableCodeExecution
    usedCustomRepoUrls := if st.enableCodeExecution then [] else st.usedCustomRepoUrls
    selectedProviderId := st.selectedProviderId
    litellm_model_string :=
      finalModelStringForSubmit st.selectedProviderId st.selectedBaseModelId
        st.inputtedModelString
    litellm_api_base := submitApiBase st.toFormState
    litellm_api_key := submitApiKey st.toFormState
    outputKey := if trimmedOutputKey = "" then none else some trimmedOutputKey
    maxLoops := if st.agentType = "LoopAgent" then some st.maxLoops else none
    childAgents :=
      if isCompositeType st.agentType then some (st.childAgents.map submitChild) else none
    platform := orNull d.platform }

/-- The handler `handleSubmit` (lines 268-362). -/
def handleSubmit (d : InitialData) (st : AgentFormState) : SubmitResult :=
  match validateAgentName st.name with
  | some agentNameError => .nameError agentNameError
  | none =>
    if isCompositeType st.agentType ∧ st.childAgents.length = 0 then
      .formError ("A " ++ st.agentType ++ " requires at least one child agent/step.")
    else if finalModelStringForSubmit st.selectedProviderId st.selectedBaseModelId
        st.inputtedModelString = "" ∧ isModelType st.agentType then
      .formError "Model String is required."
    else
      .submitted (agentDataToSubmit d st)

mutual
/-- Whether a child agent or one of its descendants carries the member
`id`. -/
def ChildAgent.carriesId : ChildAgent → Bool
  | ⟨props, children⟩ => props.id.isSome || ChildAgent.anyCarriesId children
/-- Whether a child agent of a list or one of its descendants carries the
member `id`. -/
def ChildAgent.anyCarriesId : List ChildAgent → Bool
  | [] => false
  | c :: cs => c.carriesId || ChildAgent.anyCarriesId cs
end

/-! ## Field edits (`AgentForm.js`, lines 167-210 and 482-538) -/

/-- An edit of the API base-URL field (line 519). The effect of lines
167-200 lists `litellmApiBase` among its dependencies, so it runs after the
edit when the value has changed; the cells are those after that run. -/
def editApiBase (d : InitialData) (st : FormState) (value : String) : FormState :=
  if value = st.litellmApiBase then st
  else providerEffect d { st with litellmApiBase := value }

/-- A change of the base-model select (line 482). Both effects list
`selectedBaseModelId` among their dependencies and run, in source order,
when the value has changed. -/
def selectBaseModel (d : InitialData) (st : FormState) (value : String) : FormState :=
  if value = st.selectedBaseModelId then st
  else baseModelEffect (providerEffect d { st with selectedBaseModelId := value })

/-- An edit of the API key field (line 538); no effect depends on the key. -/
def editApiKey (st : FormState) (value : String) : FormState :=
  { st with litellmApiKey := value }

/-- An edit of the model string field (line 498); no effect depends on the
typed string. -/
def editModelString (st : FormState) (value : String) : FormState :=
  { st with inputtedModelString := value }

/-- Whether the form renders the model string field (line 492). -/
def showsModelStringField (st : FormState) : Bool :=
  st.selectedProviderId == "custom" || st.selectedProviderId == "openai_compatible" ||
    (match getLiteLLMProviderConfig st.selectedProviderId with
     | some currentProviderConfig => currentProviderConfig.models.length == 0
     | none => false)

/-! ## Mount of the form (`AgentForm.js`, lines 50-210) -/

/-- The cells of the first render: the `useState` initial values of lines
50-75. -/
def firstRender (d : InitialData) : FormState :=
  { name := orElse d.name ""
    description := orElse d.description ""
    agentType := orElse d.agentType "Agent"
    selectedProviderId := orElse d.selectedProviderId DEFAULT_LITELLM_PROVIDER_ID
    selectedBaseModelId := orElse d.litellm_model_string DEFAULT_LITELLM_BASE_MODEL_ID
    inputtedModelString := orElse d.litellm_model_string DEFAULT_LITELLM_BASE_MODEL_ID
    litellmApiBase := orElse d.litellm_api_base ""
    litellmApiKey := orElse d.litellm_api_key ""
    instruction := orElse d.instruction ""
    selectedTools := d.tools.getD []
    enableCodeExecution := d.enableCodeExecution.getD false
    usedCustomRepoUrls :=
      match d.usedCustomRepoUrls with
      | some us => us
      | none => customRepoUrls (d.tools.getD [])
    outputKey := orElse d.outputKey "" }

/-- The writes of the effect of lines 167-200 when it runs in a render whose
cells are `closure`: the values are computed from the cells of that render
and written over `target`, the cells as the earlier effects of the same
commit have left them. -/
def applyProviderEffect (d : InitialData) (closure target : FormState) : FormState :=
  match getLiteLLMProviderConfig closure.selectedProviderId with
  | none => target
  | some _ =>
    { target with
      selectedBaseModelId := (providerEffect d closure).selectedBaseModelId
      inputtedModelString := (providerEffect d closure).inputtedModelString
      litellmApiBase := (providerEffect d closure).litellmApiBase
      litellmApiKey := (providerEffect d closure).litellmApiKey }

/-- The write of the effect of lines 203-210 when it runs in a render whose
cells are `closure`. -/
def applyBaseModelEffect (closure target : FormState) : FormState :=
  if closure.selectedProviderId ≠ "custom" ∧ closure.selectedProviderId ≠ "openai_compatible" ∧
      closure.selectedBaseModelId ≠ "" then
    { target with inputtedModelString := closure.selectedBaseModelId }
  else target

/-- The cells after the commit of the first render. The three effects run in
source order with the cells of the first render: the initialisation effect
sets `initialDataProcessedRef.current` on line 162, so the guards of lines
169 and 205 pass, and a later write to a cell replaces an earlier one. -/
def mountCommit (d : InitialData) : FormState :=
  applyBaseModelEffect (firstRender d)
    (applyProviderEffect d (firstRender d) (initFromData d))

/-- The cells after the commit of a later render with cells `cur`, the
render before having had the cells `prev`: an effect runs when a cell of its
dependency list has changed. The prop `initialData` is the same object in
every render. -/
def rerender (d : InitialData) (prev cur : FormState) : FormState :=
  let afterProvider :=
    if prev.selectedProviderId ≠ cur.selectedProviderId ∨
        prev.litellmApiBase ≠ cur.litellmApiBase ∨
        prev.selectedBaseModelId ≠ cur.selectedBaseModelId then
      applyProviderEffect d cur cur
    else cur
  if prev.selectedBaseModelId ≠ cur.selectedBaseModelId ∨
      prev.selectedProviderId ≠ cur.selectedProviderId then
    applyBaseModelEffect cur afterProvider
  else afterProvider

/-- Renders are repeated until a commit leaves the cells as they are, at
most `fuel` times. -/
def settle (d : InitialData) : Nat → FormState → FormState → FormState
  | 0, _, cur => cur
  | fuel + 1, prev, cur =>
    if rerender d prev cur = cur then cur
    else settle d fuel cur (rerender d prev cur)

/-- Whether the renders come to rest within `fuel` commits. -/
def settles (d : InitialData) : Nat → FormState → FormState → Bool
  | 0, _, _ => false
  | fuel + 1, prev, cur =>
    if rerender d prev cur = cur then true
    else settles d fuel cur (rerender d prev cur)

/-- The cells of the mounted form: the commit of the first render followed
by the renders it causes. -/
def mountForm (d : InitialData) (fuel : Nat) : FormState :=
  settle d fuel (firstRender d) (mountCommit d)

/-- The provider ids the provider select offers (lines 465-467): the ids of
the registry, in order. The `onChange` of the select is the one writer of
`selectedProviderId` after the initialisation. -/
def providerSelectOptions : List String :=
  MODEL_PROVIDERS_LITELLM.map (fun provider => provider.id)

/-! ## Artifact updates (`AgentRunner.js`, lines 38-59) -/

/-- The value a delta gives for one filename, by the case of the source's
`typeof` analysis it falls in. -/
inductive VersionInfo where
  /-- An object with a `version` member holding a number. -/
  | withVersion (version : Int)
  /-- A number. -/
  | number (n : Int)
  /-- An object without a `version` member; `json` is its
  `JSON.stringify` rendering. -/
  | object (json : String)
  /-- A string, which is kept as it is. -/
  | text (s : String)
  deriving DecidableEq, Repr

/-- The value stored for one filename: a number or a string. -/
inductive VersionLabel where
  | number (n : Int)
  | text (s : String)
  deriving DecidableEq, Repr

/-- The member `actions` of an event. -/
structure EventActions where
  artifact_delta : Option (List (String × VersionInfo))
  deriving DecidableEq, Repr

/-- An event of the raw event list, with the members the runner reads. The
delta lists the entries of the object in `Object.entries` order. -/
structure Event where
  type : Option String := none
  content : Option String := none
  actions : Option EventActions := none
  deriving DecidableEq, Repr

/-- The value `versionDisplay` computed on lines 46-53. -/
def versionDisplay : VersionInfo → VersionLabel
  | .withVersion version => .number version
  | .number n => .number n
  | .object json => .text json
  | .text s => .text s

/-- The assignment `updates[filename] = versionDisplay` on the own
properties of the object literal `updates`, kept in insertion order. The
key `__proto__` is not an ordinary key of an object literal: assigning to it
runs the setter inherited from `Object.prototype`, which ignores a number or
a string and adds no own property. -/
def assignUpdate (updates : List (String × VersionLabel)) (filename : String)
    (v : VersionLabel) : List (String × VersionLabel) :=
  if filename = "__proto__" then updates
  else if updates.any (fun kv => kv.1 == filename) then
    updates.map (fun kv => if kv.1 = filename then (kv.1, v) else kv)
  else updates ++ [(filename, v)]

/-- The inner `for ... of Object.entries(delta)` loop of lines 45-55. -/
def foldDelta (updates : List (String × VersionLabel))
    (delta : List (String × VersionInfo)) : List (String × VersionLabel) :=
  delta.foldl (fun u kv => assignUpdate u kv.1 (versionDisplay kv.2)) updates

/-- The delta an event exposes under the guard of line 44; an absent
`actions` or an absent `artifact_delta` exposes none. -/
def eventDelta (event : Event) : Option (List (String × VersionInfo)) :=
  match event.actions with
  | none => none
  | some a => a.artifact_delta

/-- The callback of `events.forEach` (lines 43-57). -/
def foldEvent (updates : List (String × VersionLabel)) (event : Event) :
    List (String × VersionLabel) :=
  match eventDelta event with
  | none => updates
  | some delta => foldDelta updates delta

/-- The function `extractArtifactUpdates`. The argument is `none` for an
input that is falsy or not an array; the result `none` is the source's
`null`. -/
def extractArtifactUpdates (events : Option (List Event)) :
    Option (List (String × VersionLabel)) :=
  match events with
  | none => none
  | some es =>
    let updates := es.foldl foldEvent []
    if updates.length > 0 then some updates else none

/-- The filename entries the events of a list contribute, in list order. -/
def artifactEntries (es : List Event) : List (String × VersionInfo) :=
  es.flatMap (fun e => (eventDelta e).getD [])

/-! ## Conversation timeline (`AgentRunner.js`) -/

/-- The `type` tag of a conversation entry. -/
inductive EntryType where
  | user
  | agent
  | error
  | stuffed_context
  | stuffed_context_history
  deriving DecidableEq, Repr

/-- A context item as built by `handleContextSubmit`. -/
structure ContextItem where
  name : String
  content : String
  type : Option String := none
  bytes : Option Nat := none
  deriving DecidableEq, Repr

/-- One entry of the `conversation` array. A member the source does not set
on an entry is `none`. -/
structure ConversationEntry where
  type : EntryType
  timestamp : Int
  text : Option String := none
  items : Option (List ContextItem) := none
  events : Option (List Event) := none
  queryErrorDetails : Option (List String) := none
  artifactUpdates : Option (List (String × VersionLabel)) := none
  deriving DecidableEq, Repr

/-- The state cells of the runner that the session logic reads and writes. -/
structure RunnerState where
  message : String
  conversation : List ConversationEntry
  isLoading : Bool
  error : Option String
  currentSessionId : Option String
  deriving DecidableEq, Repr

/-- The state of a freshly mounted runner. -/
def RunnerState.initial : RunnerState :=
  { message := "", conversation := [], isLoading := false, error := none,
    currentSessionId := none }

/-- The result object of `queryAgent`. -/
structure QueryResult where
  success : Bool
  responseText : Option String := none
  events : Option (List Event) := none
  adkSessionId : Option String := none
  queryErrorDetails : Option (List String) := none
  message : Option String := none
  deriving DecidableEq, Repr

/-- How the awaited `queryAgent` call ends: with a result object, or with a
thrown error carrying an optional message. -/
inductive QueryOutcome where
  | resolved (result : QueryResult)
  | thrown (message : Option String)
  deriving DecidableEq, Repr

/-- The arguments of the one `queryAgent` call of `handleSendMessage`. -/
structure QueryRequest where
  combinedMessageForAgent : String
  currentSessionId : Option String
  activeContextItems : List ContextItem
  deriving DecidableEq, Repr

/-- The test `['user', 'agent', 'error'].includes(type)`. -/
def isProperMessage (e : ConversationEntry) : Bool :=
  e.type = .user || e.type = .agent || e.type = .error

/-- The entries after the last user, agent or error entry: the
`conversation.slice(lastProperMessageIndex + 1)` of lines 257-265. -/
def recentContextMessages (conversation : List ConversationEntry) : List ConversationEntry :=
  (conversation.reverse.takeWhile (fun e => !isProperMessage e)).reverse

/-- The list `activeContextItems` of lines 266-271. -/
def activeContextItems (conversation : List ConversationEntry) : List ContextItem :=
  (recentContextMessages conversation).flatMap (fun convItem =>
    if convItem.type = .stuffed_context then convItem.items.getD [] else [])

/-- The items a timeline entry holds as a live context bundle: those of an
entry of type `stuffed_context`, none for any other entry. -/
def bundleItems (convItem : ConversationEntry) : List ContextItem :=
  if convItem.type = .stuffed_context then convItem.items.getD [] else []

/-- Whether an outcome is a failed exchange: a response with `success`
false, or a thrown error. -/
def outcomeFailed : QueryOutcome → Bool
  | .resolved result => !result.success
  | .thrown _ => true

/-- The rendering of one context item on line 283. -/
def renderContextItem (item : ContextItem) : String :=
  "File: " ++ item.name ++ "\n```\n" ++ item.content ++ "\n```\n"

/-- The string `combinedMessageForAgent` of lines 280-286. -/
def combinedMessageForAgent (userQueryText : String) (items : List ContextItem) : String :=
  if items.length > 0 then
    let contextString := "\n---\n".intercalate (items.map renderContextItem)
    contextString ++ "\n---\nUser Query:\n" ++
      (if userQueryText = "" then "[No explicit user query, process provided context]"
       else userQueryText)
  else userQueryText

/-- The string `userMessageDisplay` of line 289. -/
def userMessageDisplay (userQueryText : String) (items : List ContextItem) : String :=
  if userQueryText ≠ "" then userQueryText
  else if items.length > 0 then "[Sending context to agent]"
  else "[Empty message - should not happen]"

/-- The part of `handleSendMessage` before the `await` (lines 253-309): the
request issued and the state after the synchronous updates, or `none` when
the handler returns early. `now` is the reading of `new Date()`. -/
def sendMessage (isHistoricalView : Bool) (now : Int) (st : RunnerState) :
    Option (QueryRequest × RunnerState) :=
  if isHistoricalView then none
  else
    let items := activeContextItems st.conversation
    let userQueryText := jsTrim st.message
    if userQueryText = "" ∧ items.length = 0 then none
    else
      let userMessageEntry : ConversationEntry :=
        { type := .user, text := some (userMessageDisplay userQueryText items), timestamp := now }
      some
        ({ combinedMessageForAgent := combinedMessageForAgent userQueryText items
           currentSessionId := st.currentSessionId
           activeContextItems := items },
         { st with
           conversation := st.conversation ++ [userMessageEntry]
           message := ""
           isLoading := true
           error := none })

/-- The part of `handleSendMessage` after the `await` (lines 311-343). -/
def receiveOutcome (now : Int) (outcome : QueryOutcome) (st : RunnerState) : RunnerState :=
  match outcome with
  | .resolved result =>
    let agentEvents := result.events.getD []
    let artifactUpdates := extractArtifactUpdates (some agentEvents)
    let agentResponse : ConversationEntry :=
      { type := .agent
        text := some (orElse result.responseText "Agent responded.")
        events := some agentEvents
        timestamp := now
        queryErrorDetails := result.queryErrorDetails
        artifactUpdates := artifactUpdates }
    if result.success then
      { st with
        conversation := st.conversation ++ [agentResponse]
        currentSessionId :=
          if truthy result.adkSessionId then result.adkSessionId else st.currentSessionId
        isLoading := false }
    else
      let errorMessage := orElse result.message "Agent query failed. No specific error message."
      { st with
        error := some errorMessage
        conversation := st.conversation ++
          [{ agentResponse with type := .error, text := some ("Query Failed: " ++ errorMessage) }]
        isLoading := false }
  | .thrown message =>
    let errorMessage := orElse message "An error occurred while querying the agent."
    { st with
      error := some errorMessage
      conversation := st.conversation ++
        [{ type := .error, text := some errorMessage, timestamp := now }]
      isLoading := false }

/-- The live branch of `handleResetSessionOrSwitchMode` (lines 350-354). -/
def resetSession (st : RunnerState) : RunnerState :=
  { st with currentSessionId := none, conversation := [], error := none }

/-- One whole exchange of a live run: the user has typed `text`, the send
handler runs at `nowSend`, and the awaited call ends with `outcome` at
`nowReceive`. When the handler returns early no request is issued and only
the typed text is held. -/
def exchange (nowSend nowReceive : Int) (text : String) (outcome : QueryOutcome)
    (st : RunnerState) : RunnerState :=
  match sendMessage false nowSend { st with message := text } with
  | none => { st with message := text }
  | some (_, st1) => receiveOutcome nowReceive outcome st1

/-- The request of one exchange, when one is issued. -/
def exchangeRequest (nowSend : Int) (text : String) (st : RunnerState) : Option QueryRequest :=
  (sendMessage false nowSend { st with message := text }).map Prod.fst

/-- The session identifier an outcome makes the runner adopt: the one of a
successful response that carries a non-empty identifier, none otherwise. -/
def outcomeSessionId : QueryOutcome → Option String
  | .resolved result =>
    if result.success = true ∧ truthy result.adkSessionId = true then result.adkSessionId
    else none
  | .thrown _ => none

/-! ## Context stuffing and the send button (`AgentRunner.js`, lines 192-250 and 368-373) -/

/-- How the awaited fetch of `handleContextSubmit` ends: with the list
`newContextItems` built on lines 197-223, or with a thrown error carrying an
optional message. -/
inductive ContextFetch where
  | fetched (newContextItems : List ContextItem)
  | thrown (message : Option String)
  deriving DecidableEq, Repr

/-- The test of lines 225-226 for an item that reports a failed or skipped
fetch. -/
def isErrorItem (item : ContextItem) : Bool :=
  item.type = some "gitfile_error" || item.type = some "gitfile_skipped" ||
    item.type = some "pdf_error"

/-- The handler `handleContextSubmit` after its fetch has ended. `now` is the
reading of `new Date()` for the entries it appends. -/
def handleContextSubmit (now : Int) (fetch : ContextFetch) (st : RunnerState) : RunnerState :=
  match fetch with
  | .fetched newContextItems =>
    let validContextItems := newContextItems.filter (fun item => !isErrorItem item)
    let errorContextItems := newContextItems.filter isErrorItem
    let withBundle : List ConversationEntry :=
      if validContextItems.length > 0 then
        st.conversation ++
          [{ type := .stuffed_context, items := some validContextItems, timestamp := now }]
      else st.conversation
    { st with
      conversation := withBundle ++ errorContextItems.map (fun errItem =>
        { type := .error
          text := some ("Context Fetch Error for \"" ++ errItem.name ++ "\": " ++
            errItem.content)
          timestamp := now })
      error :=
        if errorContextItems.length > 0 ∧ validContextItems.length = 0 then
          some "Some context items could not be fetched/processed. See chat for details."
        else none }
  | .thrown message =>
    let displayError := orElse message "An unexpected error occurred while fetching context."
    { st with
      error := some ("Failed to stuff context: " ++ displayError)
      conversation := st.conversation ++
        [{ type := .error, text := some ("Context Fetch Error: " ++ displayError)
           timestamp := now }] }

/-- The flag `hasNewContextToProcess` of lines 369-371. The index found in
the reversed array (`-1` when there is none) plus one is used as the start of
a slice of the array itself. -/
def hasNewContextToProcess (conversation : List ConversationEntry) : Bool :=
  let start : Nat :=
    match conversation.reverse.findIdx? isProperMessage with
    | some i => i + 1
    | none => 0
  (conversation.drop start).any (fun m => m.type = .stuffed_context)

/-- The flag `sendButtonDisabled` of line 373. -/
def sendButtonDisabled (isContextLoading isHistoricalView : Bool) (st : RunnerState) : Bool :=
  st.isLoading || isContextLoading || isHistoricalView ||
    (jsTrim st.message == "" && !hasNewContextToProcess st.conversation)

/-- Whether the timeline holds unconsumed context: a `stuffed_context` entry
after its last user, agent or error entry. -/
def hasUnconsumedContext (conversation : List ConversationEntry) : Bool :=
  (recentContextMessages conversation).any (fun m => m.type = .stuffed_context)

/-- The position of the first entry after the last user, agent or error
entry of a timeline. -/
def consumedFrom (conversation : List ConversationEntry) : Nat :=
  conversation.length - (recentContextMessages conversation).length

/-- A step of a live run. -/
inductive LiveStep where
  | appendContext (now : Int) (fetch : ContextFetch)
  | send (now : Int) (text : String)
  | receive (now : Int) (outcome : QueryOutcome)
  deriving DecidableEq, Repr

/-- The state after one step of a live run. A send whose handler returns
early leaves the typed text in the input. -/
def liveStep (st : RunnerState) : LiveStep → RunnerState
  | .appendContext now fetch => handleContextSubmit now fetch st
  | .send now text =>
    match sendMessage false now { st with message := text } with
    | some (_, st1) => st1
    | none => { st with message := text }
  | .receive now outcome => receiveOutcome now outcome st

/-- The timeline positions whose context a step attaches to a request: for a
send that issues a request, the positions from the first entry after the last
user, agent or error entry up to the end of the timeline; none for any
other step. -/
def stepConsumption (st : RunnerState) : LiveStep → Option (Nat × Nat)
  | .send now text =>
    match sendMessage false now { st with message := text } with
    | some _ => some (consumedFrom st.conversation, st.conversation.length)
    | none => none
  | _ => none

/-- The ranges of timeline positions attached to the requests of a live run,
in the order of the requests. -/
def runConsumptions (st : RunnerState) : List LiveStep → List (Nat × Nat)
  | [] => []
  | step :: steps =>
    (stepConsumption st step).toList ++ runConsumptions (liveStep st step) steps

/-- The state after a live run. -/
def runLive (st : RunnerState) (steps : List LiveStep) : RunnerState :=
  steps.foldl liveStep st

/-! ## Reconstruction from history (`AgentRunner.js`, lines 96-167) -/

/-- The member `stuffedContextItems` of a run record: a serialized string or
a list. -/
inductive StuffedContext where
  | serialized (raw : String)
  | list (items : List ContextItem)
  deriving DecidableEq, Repr

/-- The `historicalRunData` prop. `timestamp` is `some t` when the record
carries a timestamp object with a `toDate` method, `t` being
`toDate().getTime()`. -/
structure HistoricalRunData where
  inputMessage : Option String := none
  timestamp : Option Int := none
  outputEventsRaw : Option String := none
  stuffedContextItems : Option StuffedContext := none
  finalResponseText : Option String := none
  queryErrorDetails : Option (List String) := none
  adkSessionId : Option String := none
  deriving DecidableEq, Repr

/-- The readings of the three `new Date()` expressions of the effect, in the
order in which the source evaluates them (lines 103, 132, 152). A reading is
used only where the record carries no timestamp. -/
structure ClockReadings where
  atUser : Int
  atContext : Int
  atAgent : Int
  deriving DecidableEq, Repr

/-- The outcome of the `try` block of lines 110-122. `JSON.parse` is given by
`parseEvents` and `parseItems`, which return `none` where it throws. -/
structure ParsedHistory where
  agentEvents : List Event
  artifactUpdatesForHistorical : Option (List (String × VersionLabel))
  stuffedContextFromHistory : Option (List ContextItem)
  deriving DecidableEq, Repr

/-- The event the `catch` block substitutes for the event list. -/
def parseErrorEvent : Event :=
  { type := some "error", content := some "Error parsing raw events." }

/-- Lines 106-122. The `catch` block replaces `agentEvents` only; what was
assigned before the throw is kept. -/
def parseHistory (parseEvents : String → Option (List Event))
    (parseItems : String → Option (List ContextItem)) (r : HistoricalRunData) :
    ParsedHistory :=
  let parsedEvents : Option (List Event) :=
    if truthy r.outputEventsRaw then parseEvents (orElse r.outputEventsRaw "") else some []
  match parsedEvents with
  | none =>
    { agentEvents := [parseErrorEvent]
      artifactUpdatesForHistorical := none
      stuffedContextFromHistory := none }
  | some agentEvents =>
    let artifactUpdatesForHistorical := extractArtifactUpdates (some agentEvents)
    match r.stuffedContextItems with
    | none =>
      { agentEvents := agentEvents
        artifactUpdatesForHistorical := artifactUpdatesForHistorical
        stuffedContextFromHistory := none }
    | some (.list items) =>
      { agentEvents := agentEvents
        artifactUpdatesForHistorical := artifactUpdatesForHistorical
        stuffedContextFromHistory := some items }
    | some (.serialized raw) =>
      if raw = "" then
        { agentEvents := agentEvents
          artifactUpdatesForHistorical := artifactUpdatesForHistorical
          stuffedContextFromHistory := none }
      else
        match parseItems raw with
        | some items =>
          { agentEvents := agentEvents
            artifactUpdatesForHistorical := artifactUpdatesForHistorical
            stuffedContextFromHistory := some items }
        | none =>
          { agentEvents := [parseErrorEvent]
            artifactUpdatesForHistorical := artifactUpdatesForHistorical
            stuffedContextFromHistory := none }

/-- Whether the serialized event list of a record is absent or parses. -/
def eventsParse (parseEvents : String → Option (List Event)) (r : HistoricalRunData) : Bool :=
  !truthy r.outputEventsRaw || (parseEvents (orElse r.outputEventsRaw "")).isSome

/-- Whether the record carries a serialized context-item list that does not
parse. -/
def contextParseFails (parseItems : String → Option (List ContextItem))
    (r : HistoricalRunData) : Bool :=
  match r.stuffedContextItems with
  | some (.serialized raw) => raw != "" && (parseItems raw).isNone
  | _ => false

/-- The stuffed-context list the record carries: the list itself, or the
list its serialized form parses to. -/
def recordContext (parseItems : String → Option (List ContextItem))
    (r : HistoricalRunData) : Option (List ContextItem) :=
  match r.stuffedContextItems with
  | none => none
  | some (.list items) => some items
  | some (.serialized raw) => if raw = "" then none else parseItems raw

/-- The method `splice(i, 0, x)`. -/
def spliceInsert (l : List ConversationEntry) (i : Nat) (x : ConversationEntry) :
    List ConversationEntry :=
  l.take i ++ [x] ++ l.drop i

/-- The array `historicalConversation` built by lines 98-155. -/
def reconstructFromHistory (parseEvents : String → Option (List Event))
    (parseItems : String → Option (List ContextItem)) (clock : ClockReadings)
    (r : HistoricalRunData) : List ConversationEntry :=
  let userEntry : ConversationEntry :=
    { type := .user
      text := r.inputMessage
      timestamp := match r.timestamp with
        | some t => t
        | none => clock.atUser }
  let historicalConversation : List ConversationEntry := [userEntry]
  let parsed := parseHistory parseEvents parseItems r
  let withContext : List ConversationEntry :=
    match parsed.stuffedContextFromHistory with
    | none => historicalConversation
    | some items =>
      if items.length > 0 then
        let contextBubble : ConversationEntry :=
          { type := .stuffed_context_history
            items := some items
            timestamp := match r.timestamp with
              | some t => t - 1000
              | none => clock.atContext }
        match historicalConversation.findIdx? (fun msg => msg.type = .user) with
        | some userMessageIndex => spliceInsert historicalConversation userMessageIndex contextBubble
        | none => contextBubble :: historicalConversation
      else historicalConversation
  withContext ++
    [{ type := .agent
       text := some (orElse r.finalResponseText "Agent did not provide a text response.")
       events := some parsed.agentEvents
       timestamp := match r.timestamp with
         | some t => t + 1000
         | none => clock.atAgent
       queryErrorDetails := r.queryErrorDetails
       artifactUpdates := parsed.artifactUpdatesForHistorical }]

/-- The state the historical branch of the effect sets (lines 157-160). -/
def loadHistory (parseEvents : String → Option (List Event))
    (parseItems : String → Option (List ContextItem)) (clock : ClockReadings)
    (r : HistoricalRunData) (st : RunnerState) : RunnerState :=
  { st with
    conversation := reconstructFromHistory parseEvents parseItems clock r
    message := ""
    error := none
    currentSessionId := none }

/-! # Theorems -/

/-! ## Agent name validation -/

theorem isNameChar_val_range (c : Char) (h : isNameChar c = true) :
    48 ≤ c.val.toNat ∧ c.val.toNat ≤ 122 := by
  simp only [isNameChar, isNameStart, Bool.or_eq_true, Bool.and_eq_true, decide_eq_true_eq,
    Char.le_def, UInt32.le_def, BitVec.le_def] at h
  have e1 : ('a' : Char).val.toBitVec.toNat = 97 := rfl
  have e2 : ('z' : Char).val.toBitVec.toNat = 122 := rfl
  have e3 : ('A' : Char).val.toBitVec.toNat = 65 := rfl
  have e4 : ('Z' : Char).val.toBitVec.toNat = 90 := rfl
  have e5 : ('0' : Char).val.toBitVec.toNat = 48 := rfl
  have e6 : ('9' : Char).val.toBitVec.toNat = 57 := rfl
  have e7 : ('_' : Char).val.toBitVec.toNat = 95 := rfl
  have e8 : c.val.toNat = c.val.toBitVec.toNat := rfl
  rcases h with ((⟨h1, h2⟩ | ⟨h1, h2⟩) | h1) | ⟨h1, h2⟩
  · omega
  · omega
  · subst h1; omega
  · omega

theorem not_isJsWhitespace_of_isNameChar (c : Char) (h : isNameChar c = true) :
    isJsWhitespace c = false := by
  have hv := isNameChar_val_range c h
  have e8 : c.val.toNat = c.val.toBitVec.toNat := rfl
  simp only [isJsWhitespace, Bool.or_eq_false_iff, Bool.and_eq_false_iff, decide_eq_false_iff_not]
  have key : ∀ k : UInt32, (k.toNat < 48 ∨ 122 < k.toNat) → ¬ c.val = k := by
    intro k hk he
    rw [he] at hv
    omega
  have hlow : ¬ (8192 : UInt32) ≤ c.val := by
    intro hle
    have h2 : (8192 : UInt32).toBitVec.toNat ≤ c.val.toBitVec.toNat := by
      simpa only [UInt32.le_def, BitVec.le_def] using hle
    have e9 : (8192 : UInt32).toBitVec.toNat = 8192 := rfl
    omega
  and_intros
  all_goals first
    | exact Or.inl hlow
    | exact key _ (by decide)

theorem regex_test_chars (name : String) (h : AGENT_NAME_REGEX_test name = true) :
    name.data ≠ [] ∧ ∀ c ∈ name.data, isNameChar c = true := by
  unfold AGENT_NAME_REGEX_test at h
  cases hd : name.data with
  | nil => simp [hd] at h
  | cons c cs =>
    simp only [hd, Bool.and_eq_true, List.all_eq_true] at h
    refine ⟨by simp, ?_⟩
    intro x hx
    rcases List.mem_cons.mp hx with rfl | hx
    · simp [isNameChar, h.1]
    · exact h.2 x hx

theorem dropWhile_eq_self_of_all_false {α : Type} (p : α → Bool) (l : List α)
    (h : ∀ x ∈ l, p x = false) : l.dropWhile p = l := by
  cases l with
  | nil => rfl
  | cons x xs => simp [List.dropWhile, h x (List.mem_cons_self x xs)]

theorem jsTrimChars_eq_self (l : List Char) (h : ∀ c ∈ l, isJsWhitespace c = false) :
    jsTrimChars l = l := by
  unfold jsTrimChars
  rw [dropWhile_eq_self_of_all_false _ l h,
    dropWhile_eq_self_of_all_false _ l.reverse (fun x hx => h x (List.mem_reverse.mp hx)),
    List.reverse_reverse]

theorem validateAgentName_eq_none_iff (name : String) :
    validateAgentName name = none ↔
      (AGENT_NAME_REGEX_test name = true ∧ name.length ≤ 63 ∧ toLowerCase name ≠ "user") := by
  constructor
  · intro h
    unfold validateAgentName at h
    split_ifs at h with h1 h2 h3 h4 h5
    exact ⟨by simpa using h3, by omega, h4⟩
  · rintro ⟨hre, hlen, hlow⟩
    obtain ⟨hne, hchars⟩ := regex_test_chars name hre
    have hws : ∀ c ∈ name.data, isJsWhitespace c = false :=
      fun c hc => not_isJsWhitespace_of_isNameChar c (hchars c hc)
    have htrim : jsTrim name = name := by
      unfold jsTrim
      rw [jsTrimChars_eq_self _ hws]
    have hname : name ≠ "" := by
      intro he
      apply hne
      rw [he]
    unfold validateAgentName
    rw [if_neg (by rw [htrim]; simp [hname])]
    rw [if_neg (by simpa using hws)]
    rw [if_neg (by simp [hre])]
    rw [if_neg (show ¬ toLowerCase name = RESERVED_AGENT_NAME from hlow)]
    rw [if_neg (by omega)]

/-- C3. `validateAgentName` reports no error exactly for the names that match
`^[A-Za-z_][A-Za-z0-9_]*$`, are at most 63 long and do not lower-case to
`user`; every casing of `user` and the name `1abc` are rejected, and `_a1`
is accepted. -/
theorem validateAgentName_accepts_iff :
    (∀ name : String, validateAgentName name = none ↔
      (AGENT_NAME_REGEX_test name = true ∧ name.length ≤ 63 ∧ toLowerCase name ≠ "user")) ∧
    (∀ name : String, toLowerCase name = "user" → validateAgentName name ≠ none) ∧
    validateAgentName "1abc" ≠ none ∧
    validateAgentName "_a1" = none := by
  refine ⟨validateAgentName_eq_none_iff, ?_, ?_, ?_⟩
  · intro name hlow h
    exact ((validateAgentName_eq_none_iff name).mp h).2.2 hlow
  · intro h
    have := ((validateAgentName_eq_none_iff "1abc").mp h).1
    revert this
    decide
  · rw [validateAgentName_eq_none_iff]
    decide

/-- The rejection of every casing of `user`, at the name `UsEr`. -/
theorem validateAgentName_accepts_iff_witness :
    toLowerCase "UsEr" = "user" ∧ validateAgentName "UsEr" ≠ none :=
  ⟨by decide, validateAgentName_accepts_iff.2.1 "UsEr" (by decide)⟩

/-! ## Initial resolution and provider switch -/

theorem getLiteLLMProviderConfig_of_mem (P : ProviderDescriptor)
    (hP : P ∈ MODEL_PROVIDERS_LITELLM) : getLiteLLMProviderConfig P.id = some P := by
  simp only [List.mem_cons, MODEL_PROVIDERS_LITELLM, List.mem_singleton, List.not_mem_nil,
    or_false] at hP
  rcases hP with rfl | rfl | rfl <;> decide

/-- C1. Code divergence: for a supplied provider id with no registry entry
(`custom` included, which the registry does not list) initial resolution
keeps the supplied id and empties both model cells, so the model string is
not preserved; and with no provider id the unprefixed string `ollama/mistral`
resolves to the default provider and its first model, not to `custom`. -/
theorem resolveInitialModel_unknown_provider_drops_string :
    resolveInitialModel
        { selectedProviderId := some "custom", litellm_model_string := some "ollama/mistral" } =
      { selectedProviderId := "custom", selectedBaseModelId := "", inputtedModelString := "" } ∧
    finalModelStringForSubmit "custom" "" "" = "" ∧
    getLiteLLMProviderConfig "custom" = none ∧
    resolveInitialModel
        { selectedProviderId := some "anthropic", litellm_model_string := some "claude-3" } =
      { selectedProviderId := "anthropic", selectedBaseModelId := "", inputtedModelString := "" } ∧
    resolveInitialModel { litellm_model_string := some "ollama/mistral" } =
      { selectedProviderId := "openai", selectedBaseModelId := "gpt-4o",
        inputtedModelString := "gpt-4o" } := by
  decide

theorem modelsSome_iff_mem (P : ProviderDescriptor) (b : String) :
    modelsSome P b = true ↔ b ∈ catalogIds P := by
  simp only [modelsSome, catalogIds, List.any_eq_true, beq_iff_eq, List.mem_map]

theorem resolveInitialModel_supplied (pid b : String) (hpid : pid ≠ "") :
    resolveInitialModel { selectedProviderId := some pid, litellm_model_string := some b } =
      resolveCatalog
        { initialSelectedProvider := pid
          initialBaseModelName := orElse (some b) DEFAULT_LITELLM_BASE_MODEL_ID } := by
  simp [resolveInitialModel, inferInitial, truthy, orElse, hpid]

theorem resolveCatalog_of_mem (P : ProviderDescriptor) (hP : P ∈ MODEL_PROVIDERS_LITELLM)
    (first : ModelEntry) (rest : List ModelEntry) (hmodels : P.models = first :: rest)
    (base : String) :
    resolveCatalog { initialSelectedProvider := P.id, initialBaseModelName := base } =
      { selectedProviderId := P.id
        selectedBaseModelId := if base ∈ catalogIds P then base else first.id
        inputtedModelString := if base ∈ catalogIds P then base else first.id } := by
  have hfree : isFreeFormProvider P.id = false := by
    simp only [List.mem_cons, MODEL_PROVIDERS_LITELLM, List.mem_singleton, List.not_mem_nil,
      or_false] at hP
    rcases hP with rfl | rfl | rfl <;> decide
  have hfirst : firstModelIdOr (some P) "" = first.id := by
    simp only [firstModelIdOr, hmodels, List.head?_cons]
    split_ifs with h
    · exact h.symm
    · rfl
  unfold resolveCatalog
  simp only [getLiteLLMProviderConfig_of_mem P hP, hfree, hfirst, Bool.false_eq_true, if_false]
  by_cases hk : base ∈ catalogIds P
  · simp [hk, (modelsSome_iff_mem P base).mpr hk]
  · have : modelsSome P base = false := by
      rw [← Bool.not_eq_true, modelsSome_iff_mem]
      exact hk
    simp [hk, this]

/-- C4. For a registry provider with a non-empty catalog and any base-model
id `b`, initial resolution selects that provider and yields `b` when `b` is
in the catalog and the first catalog entry otherwise, in both model cells and
as the submitted model address. -/
theorem resolveInitialModel_catalog (P : ProviderDescriptor)
    (hP : P ∈ MODEL_PROVIDERS_LITELLM) (first : ModelEntry) (rest : List ModelEntry)
    (hmodels : P.models = first :: rest) (b : String) :
    (resolveInitialModel
        { selectedProviderId := some P.id, litellm_model_string := some b }).selectedProviderId
      = P.id ∧
    (resolveInitialModel
        { selectedProviderId := some P.id, litellm_model_string := some b }).selectedBaseModelId
      = (if b ∈ catalogIds P then b else first.id) ∧
    (resolveInitialModel
        { selectedProviderId := some P.id, litellm_model_string := some b }).inputtedModelString
      = (if b ∈ catalogIds P then b else first.id) ∧
    finalModelStringForSubmit P.id (if b ∈ catalogIds P then b else first.id)
        (if b ∈ catalogIds P then b else first.id)
      = (if b ∈ catalogIds P then b else first.id) := by
  have hpid : P.id ≠ "" := by
    simp only [List.mem_cons, MODEL_PROVIDERS_LITELLM, List.mem_singleton, List.not_mem_nil,
      or_false] at hP
    rcases hP with rfl | rfl | rfl <;> decide
  have hfree : isFreeFormProvider P.id = false := by
    simp only [List.mem_cons, MODEL_PROVIDERS_LITELLM, List.mem_singleton, List.not_mem_nil,
      or_false] at hP
    rcases hP with rfl | rfl | rfl <;> decide
  have key :
      (if orElse (some b) DEFAULT_LITELLM_BASE_MODEL_ID ∈ catalogIds P then
          orElse (some b) DEFAULT_LITELLM_BASE_MODEL_ID else first.id) =
        (if b ∈ catalogIds P then b else first.id) := by
    by_cases hb : b = ""
    · subst hb
      simp only [List.mem_cons, MODEL_PROVIDERS_LITELLM, List.mem_singleton, List.not_mem_nil,
        or_false] at hP
      rcases hP with rfl | rfl | rfl
      · cases hmodels
        decide
      · cases hmodels
      · cases hmodels
        decide
    · simp [orElse, hb]
  rw [resolveInitialModel_supplied P.id b hpid, resolveCatalog_of_mem P hP first rest hmodels,
    key]
  refine ⟨rfl, rfl, rfl, ?_⟩
  simp [finalModelStringForSubmit, hfree]

/-- The catalog fallback at `deepinfra` with the base-model id `gpt-4o`, which
is not in its catalog. -/
theorem resolveInitialModel_catalog_witness :
    providerDeepInfra ∈ MODEL_PROVIDERS_LITELLM ∧
    (resolveInitialModel
        { selectedProviderId := some providerDeepInfra.id,
          litellm_model_string := some "gpt-4o" }).selectedBaseModelId
      = (if "gpt-4o" ∈ catalogIds providerDeepInfra then "gpt-4o"
         else "meta-llama/Llama-3.3-70B-Instruct-Turbo") :=
  ⟨by decide,
    (resolveInitialModel_catalog providerDeepInfra (by decide)
      { id := "meta-llama/Llama-3.3-70B-Instruct-Turbo",
        name := "Llama 3.3 70B Instruct Turbo (DeepInfra)" } _ rfl "gpt-4o").2.1⟩

theorem switchProvider_selectedBaseModelId (d : InitialData) (st : FormState)
    (providerId : String) :
    (switchProvider d st providerId).selectedBaseModelId =
      switchedBaseModel providerId st.selectedBaseModelId := by
  have h3 : ∀ s : FormState, (baseModelEffect s).selectedBaseModelId = s.selectedBaseModelId := by
    intro s
    unfold baseModelEffect
    split_ifs <;> rfl
  unfold switchProvider
  rw [h3]
  unfold providerEffect switchedBaseModel
  cases getLiteLLMProviderConfig providerId with
  | none => rfl
  | some providerConf =>
    dsimp only
    by_cases hfree : isFreeFormProvider providerConf.id = true
    · simp [hfree]
    · cases hm : providerConf.models with
      | nil => simp [hfree]
      | cons firstModel rest => simp [hfree]

theorem switchProvider_selectedProviderId (d : InitialData) (st : FormState)
    (providerId : String) :
    (switchProvider d st providerId).selectedProviderId = providerId := by
  have h3 : ∀ s : FormState, (baseModelEffect s).selectedProviderId = s.selectedProviderId := by
    intro s
    unfold baseModelEffect
    split_ifs <;> rfl
  unfold switchProvider
  rw [h3]
  unfold providerEffect
  cases getLiteLLMProviderConfig providerId with
  | none => rfl
  | some providerConf =>
    dsimp only
    split
    · rfl
    · split <;> rfl

theorem switchProvider_litellmApiBase (d : InitialData) (st : FormState)
    (P : ProviderDescriptor) (hP : P ∈ MODEL_PROVIDERS_LITELLM) :
    (switchProvider d st P.id).litellmApiBase =
      (if P.allowsCustomBase = true then st.litellmApiBase else orElse P.apiBase "") := by
  have h3 : ∀ s : FormState, (baseModelEffect s).litellmApiBase = s.litellmApiBase := by
    intro s
    unfold baseModelEffect
    split_ifs <;> rfl
  unfold switchProvider
  rw [h3]
  unfold providerEffect
  simp only [getLiteLLMProviderConfig_of_mem P hP]

/-- C2, counterexample. Starting from `openai` with the catalog model
`o3-mini-2025-01-31`, switching to `deepinfra` and back to `openai` leaves the
base-model selection at `gpt-4o`, not at the model selected before. -/
theorem switchProvider_roundtrip_counterexample :
    providerOpenAI ∈ MODEL_PROVIDERS_LITELLM ∧ providerDeepInfra ∈ MODEL_PROVIDERS_LITELLM ∧
    "o3-mini-2025-01-31" ∈ catalogIds providerOpenAI ∧
    (initFromData { selectedProviderId := some "openai",
                    litellm_model_string := some "o3-mini-2025-01-31" }).selectedProviderId
      = "openai" ∧
    (initFromData { selectedProviderId := some "openai",
                    litellm_model_string := some "o3-mini-2025-01-31" }).selectedBaseModelId
      = "o3-mini-2025-01-31" ∧
    (switchProvider {}
        (switchProvider {}
          (initFromData { selectedProviderId := some "openai",
                          litellm_model_string := some "o3-mini-2025-01-31" })
          "deepinfra")
        "openai").selectedBaseModelId = "gpt-4o" ∧
    "gpt-4o" ≠ "o3-mini-2025-01-31" := by
  decide

/-- C2, amended. Starting from registry provider `A` with a base model `m` of
its catalog, switching to registry provider `B` and back to `A` leaves the
base-model selection equal to `m` when `m` is also in the catalog of `B` (in
this registry, when `B` is `A`) and equal to the first catalog entry of `A`
otherwise. -/
theorem switchProvider_roundtrip (d : InitialData) (st : FormState)
    (A B : ProviderDescriptor) (m : String)
    (hA : A ∈ MODEL_PROVIDERS_LITELLM) (hB : B ∈ MODEL_PROVIDERS_LITELLM)
    (hm : m ∈ catalogIds A) (hprov : st.selectedProviderId = A.id)
    (hbase : st.selectedBaseModelId = m) :
    (switchProvider d (switchProvider d st B.id) A.id).selectedProviderId =
      st.selectedProviderId ∧
    (switchProvider d (switchProvider d st B.id) A.id).selectedBaseModelId =
      (if m ∈ catalogIds B then m else (catalogIds A).headD "") ∧
    (m ∈ catalogIds B ↔ B = A) := by
  refine ⟨by rw [switchProvider_selectedProviderId, hprov], ?_⟩
  have key : ∀ A ∈ MODEL_PROVIDERS_LITELLM, ∀ B ∈ MODEL_PROVIDERS_LITELLM,
      ∀ m ∈ catalogIds A,
        switchedBaseModel A.id (switchedBaseModel B.id m) =
          (if m ∈ catalogIds B then m else (catalogIds A).headD "") ∧
        (m ∈ catalogIds B ↔ B = A) := by
    decide
  rw [switchProvider_selectedBaseModelId, switchProvider_selectedBaseModelId, hbase]
  exact key A hA B hB m hm

/-- The round trip from `openai` with `o4-mini-2025-04-16` through `openai`
itself. -/
theorem switchProvider_roundtrip_witness :
    (switchProvider {}
        (switchProvider {}
          (initFromData { selectedProviderId := some "openai",
                          litellm_model_string := some "o4-mini-2025-04-16" })
          providerOpenAI.id)
        providerOpenAI.id).selectedBaseModelId =
      (if "o4-mini-2025-04-16" ∈ catalogIds providerOpenAI then "o4-mini-2025-04-16"
       else (catalogIds providerOpenAI).headD "") :=
  (switchProvider_roundtrip {}
    (initFromData { selectedProviderId := some "openai",
                    litellm_model_string := some "o4-mini-2025-04-16" })
    providerOpenAI providerOpenAI "o4-mini-2025-04-16"
    (by decide) (by decide) (by decide) (by decide) (by decide)).2.1

/-- C8, counterexample. A switch to `openai`, which allows a custom base and
has the default base `https://api.openai.com/v1`, with nothing typed in the
base-URL field leaves the field empty, not at the default. -/
theorem switchProvider_apiBase_counterexample :
    providerOpenAI ∈ MODEL_PROVIDERS_LITELLM ∧
    providerOpenAI.allowsCustomBase = true ∧
    providerOpenAI.apiBase = some "https://api.openai.com/v1" ∧
    (initFromData { selectedProviderId := some "watsonx" }).litellmApiBase = "" ∧
    (switchProvider {} (initFromData { selectedProviderId := some "watsonx" })
        providerOpenAI.id).litellmApiBase = "" := by
  decide

/-- C8, amended. After a switch to registry provider `P` the base-URL field
equals the default base URL of `P` (empty when `P` has none) when `P` does
not allow a custom base; when `P` allows a custom base the field keeps the
value it held before the switch, so a typed URL is kept and an empty field
stays empty. -/
theorem switchProvider_apiBase (d : InitialData) (st : FormState)
    (P : ProviderDescriptor) (hP : P ∈ MODEL_PROVIDERS_LITELLM) :
    (P.allowsCustomBase = false →
      (switchProvider d st P.id).litellmApiBase = orElse P.apiBase "") ∧
    (P.allowsCustomBase = true →
      (switchProvider d st P.id).litellmApiBase = st.litellmApiBase) := by
  rw [switchProvider_litellmApiBase d st P hP]
  constructor
  · intro h
    simp [h]
  · intro h
    simp [h]

/-- A switch to `deepinfra`, which allows no custom base, with a typed base
URL. -/
theorem switchProvider_apiBase_witness :
    providerDeepInfra ∈ MODEL_PROVIDERS_LITELLM ∧ providerDeepInfra.allowsCustomBase = false ∧
    (switchProvider {} (initFromData { litellm_api_base := some "http://localhost:4000" })
        providerDeepInfra.id).litellmApiBase = orElse providerDeepInfra.apiBase "" :=
  ⟨by decide, by decide,
    (switchProvider_apiBase {} (initFromData { litellm_api_base := some "http://localhost:4000" })
      providerDeepInfra (by decide)).1 (by decide)⟩

/-! ## Tools and code execution -/

theorem toolsExclusive_initFromData (d : InitialData) : ToolsExclusive (initFromData d) := by
  intro h
  simp only [initFromData] at h ⊢
  simp [h]

theorem toolsExclusive_applyToolEvent (st : FormState) (ev : ToolEvent)
    (_h : ToolsExclusive st) : ToolsExclusive (applyToolEvent st ev) := by
  cases ev with
  | codeExecutionChange isChecked =>
    intro h
    cases isChecked with
    | true => rfl
    | false => simp [applyToolEvent, handleCodeExecutionChange] at h
  | selectedToolsChange newTools =>
    intro h
    simp only [applyToolEvent, handleSelectedToolsChange] at h ⊢
    cases newTools with
    | nil => rfl
    | cons t ts =>
      exfalso
      by_cases he : st.enableCodeExecution = true
      · simp [he] at h
      · simp [he] at h

theorem toolsExclusive_applyToolEvents (evs : List ToolEvent) (st : FormState)
    (h : ToolsExclusive st) : ToolsExclusive (applyToolEvents st evs) := by
  induction evs generalizing st with
  | nil => exact h
  | cons ev evs ih =>
    exact ih (applyToolEvent st ev) (toolsExclusive_applyToolEvent st ev h)

/-- C5. After initialisation from any initial data and any sequence of
code-execution toggles and tool-selection changes, code execution enabled
implies that the selected-tools list is empty; enabling code execution
empties the tools, and selecting a non-empty tool list disables code
execution. -/
theorem tools_codeExecution_exclusive :
    (∀ (d : InitialData) (evs : List ToolEvent),
      (applyToolEvents (initFromData d) evs).enableCodeExecution = true →
        (applyToolEvents (initFromData d) evs).selectedTools = []) ∧
    (∀ st : FormState,
      (handleCodeExecutionChange true st).enableCodeExecution = true ∧
      (handleCodeExecutionChange true st).selectedTools = []) ∧
    (∀ (st : FormState) (newTools : List ToolRef), newTools ≠ [] →
      (handleSelectedToolsChange newTools st).selectedTools = newTools ∧
      (handleSelectedToolsChange newTools st).enableCodeExecution = false) := by
  refine ⟨?_, ?_, ?_⟩
  · intro d evs
    exact toolsExclusive_applyToolEvents evs (initFromData d) (toolsExclusive_initFromData d)
  · intro st
    exact ⟨rfl, rfl⟩
  · intro st newTools hne
    refine ⟨rfl, ?_⟩
    cases newTools with
    | nil => exact absurd rfl hne
    | cons t ts =>
      simp only [handleSelectedToolsChange]
      by_cases he : st.enableCodeExecution = true
      · simp [he]
      · simp [he]

/-- The invariant after initialisation with code execution enabled and one
tool, a tool selection and a re-enabling of code execution. -/
theorem tools_codeExecution_exclusive_witness :
    (applyToolEvents
        (initFromData { enableCodeExecution := some true,
                        tools := some [{ id := "t1", type := none, sourceRepoUrl := none }] })
        [.selectedToolsChange [{ id := "t2", type := none, sourceRepoUrl := none }],
         .codeExecutionChange true]).enableCodeExecution = true ∧
    (applyToolEvents
        (initFromData { enableCodeExecution := some true,
                        tools := some [{ id := "t1", type := none, sourceRepoUrl := none }] })
        [.selectedToolsChange [{ id := "t2", type := none, sourceRepoUrl := none }],
         .codeExecutionChange true]).selectedTools = [] :=
  ⟨by decide, tools_codeExecution_exclusive.1 _ _ (by decide)⟩

/-! ## Session identifier -/

theorem receiveOutcome_currentSessionId (now : Int) (outcome : QueryOutcome) (st : RunnerState) :
    (receiveOutcome now outcome st).currentSessionId =
      (match outcomeSessionId outcome with
       | some id => some id
       | none => st.currentSessionId) := by
  cases outcome with
  | thrown message => rfl
  | resolved result =>
    simp only [receiveOutcome, outcomeSessionId]
    by_cases hs : result.success = true
    · by_cases ht : truthy result.adkSessionId = true
      · cases hid : result.adkSessionId with
        | none => simp [hid, truthy] at ht
        | some id => simp [hs, truthy, hid] at ht ⊢; simp [ht]
      · simp [hs, ht]
    · simp [hs]

/-- C6, counterexample. In a live run whose first successful response
carries the session identifier `s1` and whose second carries `s2`, the held
session id is `s1` after the first exchange and `s2` after the second, and
the third request carries `s2`. -/
theorem sessionId_replaced_counterexample :
    (exchange 1 2 "a" (.resolved { success := true, adkSessionId := some "s1" })
        RunnerState.initial).currentSessionId = some "s1" ∧
    (exchange 3 4 "b" (.resolved { success := true, adkSessionId := some "s2" })
        (exchange 1 2 "a" (.resolved { success := true, adkSessionId := some "s1" })
          RunnerState.initial)).currentSessionId = some "s2" ∧
    (exchangeRequest 5 "c"
        (exchange 3 4 "b" (.resolved { success := true, adkSessionId := some "s2" })
          (exchange 1 2 "a" (.resolved { success := true, adkSessionId := some "s1" })
            RunnerState.initial))).map (fun req => req.currentSessionId) = some (some "s2") := by
  decide

/-- C6, amended. In a live run every request carries the session id held
when it is sent, and after the exchange the held id is the identifier of the
response when the response is successful and carries one, whether or not an
id was held before, and is unchanged otherwise. -/
theorem exchange_sessionId (nowSend nowReceive : Int) (text : String)
    (outcome : QueryOutcome) (st : RunnerState) (req : QueryRequest)
    (hreq : exchangeRequest nowSend text st = some req) :
    req.currentSessionId = st.currentSessionId ∧
    (exchange nowSend nowReceive text outcome st).currentSessionId =
      (match outcomeSessionId outcome with
       | some id => some id
       | none => st.currentSessionId) := by
  unfold exchangeRequest at hreq
  unfold exchange
  cases hs : sendMessage false nowSend { st with message := text } with
  | none => simp [hs] at hreq
  | some p =>
    obtain ⟨req1, st1⟩ := p
    simp only [hs, Option.map_some', Option.some.injEq] at hreq
    subst hreq
    have hsend : req1.currentSessionId = st.currentSessionId ∧
        st1.currentSessionId = st.currentSessionId := by
      unfold sendMessage at hs
      simp only [Bool.false_eq_true, if_false] at hs
      split_ifs at hs
      simp only [Option.some.injEq, Prod.mk.injEq] at hs
      obtain ⟨h1, h2⟩ := hs
      subst h1 h2
      exact ⟨rfl, rfl⟩
    refine ⟨hsend.1, ?_⟩
    dsimp only
    rw [receiveOutcome_currentSessionId, hsend.2]

/-- The second exchange of a run whose responses carry `s1` and then `s2`. -/
theorem exchange_sessionId_witness :
    exchangeRequest 3 "b"
        (exchange 1 2 "a" (.resolved { success := true, adkSessionId := some "s1" })
          RunnerState.initial) =
      some { combinedMessageForAgent := "b", currentSessionId := some "s1",
             activeContextItems := [] } ∧
    (exchange 3 4 "b" (.resolved { success := true, adkSessionId := some "s2" })
        (exchange 1 2 "a" (.resolved { success := true, adkSessionId := some "s1" })
          RunnerState.initial)).currentSessionId =
      (match outcomeSessionId (.resolved { success := true, adkSessionId := some "s2" }) with
       | some id => some id
       | none =>
         (exchange 1 2 "a" (.resolved { success := true, adkSessionId := some "s1" })
           RunnerState.initial).currentSessionId) :=
  ⟨by decide,
    (exchange_sessionId 3 4 "b" (.resolved { success := true, adkSessionId := some "s2" })
      (exchange 1 2 "a" (.resolved { success := true, adkSessionId := some "s1" })
        RunnerState.initial)
      { combinedMessageForAgent := "b", currentSessionId := some "s1",
        activeContextItems := [] } (by decide)).2⟩

/-! ## Reconstruction from history -/

/-- C7, counterexample. For the record with `inputMessage = "hi"` and
`stuffedContextItems = [{name: "x", content: "y"}]` and no timestamp, each
entry is stamped with its own reading of the current time, the context
bundle after the user message: with readings 1000, 1001 and 1002 the
context bundle is stamped 1001 and the user message 1000. -/
theorem reconstruct_timestamps_counterexample :
    (reconstructFromHistory (fun _ => none) (fun _ => none)
        { atUser := 1000, atContext := 1001, atAgent := 1002 }
        { inputMessage := some "hi"
          stuffedContextItems := some (.list [{ name := "x", content := "y" }]) }).map
      (fun e => (e.type, e.timestamp)) =
      [(EntryType.stuffed_context_history, 1001), (EntryType.user, 1000),
       (EntryType.agent, 1002)] ∧
    ¬ ((1001 : Int) < 1000) := by
  decide

theorem reconstructFromHistory_with_context (parseEvents : String → Option (List Event))
    (parseItems : String → Option (List ContextItem)) (clock : ClockReadings)
    (r : HistoricalRunData) (t : Int) (items : List ContextItem)
    (hts : r.timestamp = some t)
    (hctx : (parseHistory parseEvents parseItems r).stuffedContextFromHistory = some items)
    (hne : items ≠ []) :
    reconstructFromHistory parseEvents parseItems clock r =
      [ { type := .stuffed_context_history, items := some items, timestamp := t - 1000 },
        { type := .user, text := r.inputMessage, timestamp := t },
        { type := .agent
          text := some (orElse r.finalResponseText "Agent did not provide a text response.")
          events := some (parseHistory parseEvents parseItems r).agentEvents
          timestamp := t + 1000
          queryErrorDetails := r.queryErrorDetails
          artifactUpdates :=
            (parseHistory parseEvents parseItems r).artifactUpdatesForHistorical } ] := by
  have hlen : items.length > 0 := List.length_pos.mpr hne
  unfold reconstructFromHistory
  simp only [hctx, hts, hlen, if_true]
  rfl

/-- C7, amended. For every persisted run record that carries a timestamp `t`
and from which a non-empty stuffed-context list is read, the reconstructed
timeline is a context bundle stamped `t - 1000`, the user message stamped `t`
and the agent message stamped `t + 1000`, so the three timestamps are
strictly increasing. -/
theorem reconstruct_timestamps (parseEvents : String → Option (List Event))
    (parseItems : String → Option (List ContextItem)) (clock : ClockReadings)
    (r : HistoricalRunData) (t : Int) (items : List ContextItem)
    (hts : r.timestamp = some t)
    (hctx : (parseHistory parseEvents parseItems r).stuffedContextFromHistory = some items)
    (hne : items ≠ []) :
    ∃ c u a : ConversationEntry,
      reconstructFromHistory parseEvents parseItems clock r = [c, u, a] ∧
      c.type = .stuffed_context_history ∧ c.items = some items ∧
      u.type = .user ∧ u.text = r.inputMessage ∧ a.type = .agent ∧
      c.timestamp = t - 1000 ∧ u.timestamp = t ∧ a.timestamp = t + 1000 ∧
      c.timestamp < u.timestamp ∧ u.timestamp < a.timestamp := by
  refine ⟨_, _, _, reconstructFromHistory_with_context parseEvents parseItems clock r t items
    hts hctx hne, rfl, rfl, rfl, rfl, rfl, rfl, rfl, rfl, ?_, ?_⟩
  · show t - 1000 < t
    omega
  · show t < t + 1000
    omega

/-- The record with `inputMessage = "hi"`, one context item and the timestamp
50000. -/
theorem reconstruct_timestamps_witness :
    (reconstructFromHistory (fun _ => none) (fun _ => none)
        { atUser := 1000, atContext := 1001, atAgent := 1002 }
        { inputMessage := some "hi", timestamp := some 50000
          stuffedContextItems := some (.list [{ name := "x", content := "y" }]) }).map
      (fun e => (e.type, e.timestamp)) =
      [(EntryType.stuffed_context_history, 49000), (EntryType.user, 50000),
       (EntryType.agent, 51000)] := by
  obtain ⟨c, u, a, h, hc, _, hu, _, ha, hct, hut, hat, _, _⟩ :=
    reconstruct_timestamps (fun _ => none) (fun _ => none)
      { atUser := 1000, atContext := 1001, atAgent := 1002 }
      { inputMessage := some "hi", timestamp := some 50000
        stuffedContextItems := some (.list [{ name := "x", content := "y" }]) }
      50000 [{ name := "x", content := "y" }] rfl (by decide) (by decide)
  rw [h]
  simp [hc, hu, ha, hct, hut, hat]

/-! ## Artifact updates -/

theorem foldl_foldEvent_eq (es : List Event) (u : List (String × VersionLabel)) :
    es.foldl foldEvent u = foldDelta u (artifactEntries es) := by
  induction es generalizing u with
  | nil => rfl
  | cons e es ih =>
    rw [List.foldl_cons, ih]
    simp only [artifactEntries, List.flatMap_cons, foldDelta, List.foldl_append, foldEvent]
    cases eventDelta e with
    | none => rfl
    | some delta => rfl

theorem lookup_map_replace (u : List (String × VersionLabel)) (f g : String)
    (v : VersionLabel) :
    (u.map (fun kv => if kv.1 = f then (kv.1, v) else kv)).lookup g =
      if g = f then (u.lookup g).map (fun _ => v) else u.lookup g := by
  induction u with
  | nil => simp
  | cons kv u ih =>
    obtain ⟨k, x⟩ := kv
    rw [List.map_cons]
    by_cases hk : k = f
    · rw [if_pos hk, List.lookup_cons, List.lookup_cons, ih]
      by_cases hg : g = k
      · have hgf : g = f := hg.trans hk
        simp [hg, hgf, hk]
      · have hbeq : (g == k) = false := by simpa using hg
        simp [hbeq]
    · rw [if_neg hk, List.lookup_cons, List.lookup_cons, ih]
      by_cases hg : g = k
      · have hgf : ¬ g = f := fun h => hk (hg ▸ h)
        simp [hg, hgf, hk]
      · have hbeq : (g == k) = false := by simpa using hg
        simp [hbeq]

theorem lookup_append_singleton {β : Type} (u : List (String × β)) (f g : String) (v : β) :
    (u ++ [(f, v)]).lookup g =
      match u.lookup g with
      | some x => some x
      | none => if g = f then some v else none := by
  induction u with
  | nil =>
    by_cases hg : g = f
    · simp [List.lookup_cons, hg]
    · have hbeq : (g == f) = false := by simpa using hg
      simp [List.lookup_cons, hbeq, hg]
  | cons kv u ih =>
    obtain ⟨k, x⟩ := kv
    rw [List.cons_append, List.lookup_cons, List.lookup_cons, ih]
    cases (g == k) <;> rfl

theorem any_key_eq_isSome (u : List (String × VersionLabel)) (f : String) :
    u.any (fun kv => kv.1 == f) = (u.lookup f).isSome := by
  induction u with
  | nil => rfl
  | cons kv u ih =>
    obtain ⟨k, x⟩ := kv
    rw [List.any_cons, List.lookup_cons, ih]
    by_cases hk : k = f
    · simp [hk]
    · have h1 : (k == f) = false := by simpa using hk
      have h2 : (f == k) = false := by simpa using fun h : f = k => hk h.symm
      simp [h1, h2]

theorem lookup_assignUpdate (u : List (String × VersionLabel)) (f g : String)
    (v : VersionLabel) (hf : f ≠ "__proto__") :
    (assignUpdate u f v).lookup g = if g = f then some v else u.lookup g := by
  unfold assignUpdate
  rw [if_neg hf]
  by_cases hany : u.any (fun kv => kv.1 == f) = true
  · rw [if_pos hany, lookup_map_replace]
    rw [any_key_eq_isSome] at hany
    by_cases hg : g = f
    · subst hg
      obtain ⟨x, hx⟩ := Option.isSome_iff_exists.mp hany
      simp [hx]
    · simp [hg]
  · rw [if_neg hany, lookup_append_singleton]
    rw [any_key_eq_isSome] at hany
    by_cases hg : g = f
    · subst hg
      have hnone : u.lookup g = none := by
        cases h : u.lookup g with
        | none => rfl
        | some x => simp [h] at hany
      simp [hnone]
    · cases h : u.lookup g <;> simp [hg]

theorem lookup_foldDelta (entries : List (String × VersionInfo))
    (u : List (String × VersionLabel)) (g : String) (hg : g ≠ "__proto__") :
    (foldDelta u entries).lookup g =
      match entries.reverse.lookup g with
      | some info => some (versionDisplay info)
      | none => u.lookup g := by
  induction entries generalizing u with
  | nil => rfl
  | cons kv entries ih =>
    obtain ⟨k, info⟩ := kv
    have hstep : foldDelta u ((k, info) :: entries) =
        foldDelta (assignUpdate u k (versionDisplay info)) entries := rfl
    rw [hstep, ih, List.reverse_cons, lookup_append_singleton]
    cases hrest : entries.reverse.lookup g with
    | some x => rfl
    | none =>
      dsimp only
      by_cases hk : k = "__proto__"
      · have hgk : ¬ g = k := fun h => hg (h.trans hk)
        simp [assignUpdate, hk, hg]
      · rw [lookup_assignUpdate u k g _ hk]
        by_cases hgk : g = k <;> simp [hgk]


theorem lookup_isSome_of_mem {β : Type} (l : List (String × β)) (kv : String × β)
    (h : kv ∈ l) : (l.lookup kv.1).isSome = true := by
  induction l with
  | nil => simp at h
  | cons x l ih =>
    obtain ⟨k, b⟩ := x
    rw [List.lookup_cons]
    by_cases hk : kv.1 = k
    · simp [hk]
    · have hbeq : (kv.1 == k) = false := by simpa using hk
      rw [hbeq]
      rcases List.mem_cons.mp h with rfl | h
      · exact absurd rfl hk
      · exact ih h

theorem foldDelta_all_proto (entries : List (String × VersionInfo))
    (u : List (String × VersionLabel)) (h : ∀ kv ∈ entries, kv.1 = "__proto__") :
    foldDelta u entries = u := by
  induction entries generalizing u with
  | nil => rfl
  | cons kv entries ih =>
    have hstep : foldDelta u (kv :: entries) =
        foldDelta (assignUpdate u kv.1 (versionDisplay kv.2)) entries := rfl
    rw [hstep, ih _ (fun x hx => h x (List.mem_cons_of_mem kv hx))]
    simp [assignUpdate, h kv (List.mem_cons_self kv entries)]

/-- For every filename other than `__proto__`: when the filename occurs in
some delta, `extractArtifactUpdates` returns a map that gives it the version
label of the last entry, in list order, that carries the filename. -/
theorem extractArtifactUpdates_lookup (es : List Event) (g : String) (info : VersionInfo)
    (hg : g ≠ "__proto__") (hlast : (artifactEntries es).reverse.lookup g = some info) :
    ∃ updates, extractArtifactUpdates (some es) = some updates ∧
      updates.lookup g = some (versionDisplay info) := by
  have hlook : (es.foldl foldEvent []).lookup g = some (versionDisplay info) := by
    rw [foldl_foldEvent_eq, lookup_foldDelta _ _ _ hg, hlast]
  have hlen : (es.foldl foldEvent []).length > 0 := by
    cases hres : es.foldl foldEvent [] with
    | nil => simp [hres] at hlook
    | cons x xs => simp
  exact ⟨es.foldl foldEvent [], by simp [extractArtifactUpdates, hlen], hlook⟩

/-- The function `extractArtifactUpdates` returns none on an event list
exactly when every filename entry the events contribute has the filename
`__proto__` (in particular when they contribute no entry). -/
theorem extractArtifactUpdates_eq_none_iff (es : List Event) :
    extractArtifactUpdates (some es) = none ↔
      ∀ kv ∈ artifactEntries es, kv.1 = "__proto__" := by
  constructor
  · intro h kv hkv
    by_contra hne
    have hsome := lookup_isSome_of_mem (artifactEntries es).reverse kv
      (List.mem_reverse.mpr hkv)
    obtain ⟨info, hinfo⟩ := Option.isSome_iff_exists.mp hsome
    obtain ⟨updates, hupd, _⟩ := extractArtifactUpdates_lookup es kv.1 info hne hinfo
    rw [h] at hupd
    exact Option.noConfusion hupd
  · intro h
    have hres : es.foldl foldEvent [] = [] := by
      rw [foldl_foldEvent_eq, foldDelta_all_proto _ _ h]
    simp [extractArtifactUpdates, hres]

/-- C9. Code divergence: an event list whose only event has the non-empty
delta `{"__proto__": 1}` contributes a filename entry, yet
`extractArtifactUpdates` returns none, because the assignment
`updates["__proto__"] = 1` adds no own property to `updates`. -/
theorem extractArtifactUpdates_none_with_entry :
    eventDelta { actions := some { artifact_delta := some [("__proto__", .number 1)] } } =
      some [("__proto__", .number 1)] ∧
    extractArtifactUpdates
      (some [{ actions := some { artifact_delta := some [("__proto__", .number 1)] } }]) =
      none := by
  decide

/-- C10. Code divergence: for the deltas `{"a.txt": 1, "__proto__": 1}` then
`{"a.txt": 2}` the result is `{"a.txt": 2}`: the filename `__proto__`
occurs in a delta but is not a key of the result, because the assignment
`updates["__proto__"] = 1` adds no own property to `updates`. -/
theorem extractArtifactUpdates_drops_proto_key :
    extractArtifactUpdates
      (some
        [{ actions := some { artifact_delta := some [("a.txt", .number 1), ("__proto__", .number 1)] } },
         { actions := some { artifact_delta := some [("a.txt", .number 2)] } }]) =
      some [("a.txt", .number 2)] ∧
    ([("a.txt", VersionLabel.number 2)] : List (String × VersionLabel)).lookup "__proto__" =
      none := by
  decide

/-! ## Provider inference -/

theorem startsWith_append (p rest : String) : startsWith (p ++ rest) p = true := by
  unfold startsWith
  rw [String.data_append, List.isPrefixOf_iff_prefix]
  exact List.prefix_append _ _

theorem substringFrom_append (p rest : String) :
    substringFrom (p ++ rest) p.length = rest := by
  unfold substringFrom
  rw [String.data_append, String.length, List.drop_left]

theorem startsWith_append_false (s p rest : String) (a b : Char) (as bs : List Char)
    (hs : s.data = a :: as) (hp : p.data = b :: bs) (hne : b ≠ a) :
    startsWith (s ++ rest) p = false := by
  unfold startsWith
  rw [String.data_append, hs, hp]
  simp [List.isPrefixOf, hne]

theorem find_prefix_of_mem (P : ProviderDescriptor) (hP : P ∈ MODEL_PROVIDERS_LITELLM)
    (rest : String) :
    MODEL_PROVIDERS_LITELLM.find? (prefixMatches (P.liteLlmModelPrefix ++ "/" ++ rest)) =
      some P := by
  have hself : ∀ Q : ProviderDescriptor, Q.liteLlmModelPrefix ≠ "" →
      prefixMatches (Q.liteLlmModelPrefix ++ "/" ++ rest) Q = true := by
    intro Q hQ
    unfold prefixMatches
    rw [startsWith_append]
    simpa using hQ
  have hother : ∀ (Q R : ProviderDescriptor) (a b : Char) (as bs : List Char),
      (Q.liteLlmModelPrefix ++ "/").data = a :: as →
      (R.liteLlmModelPrefix ++ "/").data = b :: bs → b ≠ a →
      prefixMatches (Q.liteLlmModelPrefix ++ "/" ++ rest) R = false := by
    intro Q R a b as bs hs hp hne
    unfold prefixMatches
    rw [startsWith_append_false _ _ rest a b as bs hs hp hne, Bool.and_false]
  simp only [List.mem_cons, MODEL_PROVIDERS_LITELLM, List.mem_singleton, List.not_mem_nil,
    or_false] at hP
  rcases hP with rfl | rfl | rfl
  · unfold MODEL_PROVIDERS_LITELLM
    rw [List.find?_cons, hself _ (by decide)]
  · unfold MODEL_PROVIDERS_LITELLM
    rw [List.find?_cons,
      hother providerWatsonX providerOpenAI 'w' 'o' "atsonx/".data "penai/".data rfl rfl
        (by decide),
      List.find?_cons, hself _ (by decide)]
  · unfold MODEL_PROVIDERS_LITELLM
    rw [List.find?_cons,
      hother providerDeepInfra providerOpenAI 'd' 'o' "eepinfra/".data "penai/".data rfl rfl
        (by decide),
      List.find?_cons,
      hother providerDeepInfra providerWatsonX 'd' 'w' "eepinfra/".data "atsonx/".data rfl rfl
        (by decide),
      List.find?_cons, hself _ (by decide)]


/-- Once the renders have come to rest, more fuel leaves the cells as they are. -/
theorem settle_of_settles (d : InitialData) (fuel : Nat) (prev cur : FormState)
    (h : settles d fuel prev cur = true) (extra : Nat) :
    settle d (fuel + extra) prev cur = settle d fuel prev cur := by
  induction fuel generalizing prev cur with
  | zero => simp [settles] at h
  | succ k ih =>
    rw [Nat.add_right_comm]
    unfold settle
    unfold settles at h
    by_cases hfix : rerender d prev cur = cur
    · simp [hfix]
    · simp only [hfix, if_false] at h ⊢
      exact ih cur (rerender d prev cur) h

/-- C11. Code divergence: the form mounts for every input, but a non-empty
full model string can leave it with an empty model address. For the string
`watsonx/google/flan-t5-xxl`, prefixed by the provider `watsonx` whose catalog
is empty, the mounted form holds the provider `watsonx` and two empty model
cells; for the provider id `azure`, which has no registry entry, with the
model string `gpt-4` it holds an empty base-model selection. In both cases
the renders come to rest, the model address submitted is empty, and submit
with a valid name reports that the model string is required. For the string
`azure/gpt-4` with no provider id the mounted form holds the provider
`azure` and the base model `gpt-4o`, the first model of `openai`, which is
the address it submits. -/
theorem mountForm_empty_address :
    providerWatsonX.models = [] ∧ getLiteLLMProviderConfig "azure" = none ∧
    settles { name := some "a1", litellm_model_string := some "watsonx/google/flan-t5-xxl" } 3
      (firstRender { name := some "a1",
                     litellm_model_string := some "watsonx/google/flan-t5-xxl" })
      (mountCommit { name := some "a1",
                     litellm_model_string := some "watsonx/google/flan-t5-xxl" }) = true ∧
    (∀ extra : Nat,
      (mountForm { name := some "a1", litellm_model_string := some "watsonx/google/flan-t5-xxl" }
        (3 + extra)).selectedProviderId = "watsonx" ∧
      (mountForm { name := some "a1", litellm_model_string := some "watsonx/google/flan-t5-xxl" }
        (3 + extra)).selectedBaseModelId = "" ∧
      (mountForm { name := some "a1", litellm_model_string := some "watsonx/google/flan-t5-xxl" }
        (3 + extra)).inputtedModelString = "" ∧
      handleSubmit { name := some "a1", litellm_model_string := some "watsonx/google/flan-t5-xxl" }
          { toFormState :=
              mountForm { name := some "a1",
                          litellm_model_string := some "watsonx/google/flan-t5-xxl" }
                (3 + extra)
            childAgents := [], maxLoops := 3, editingChild := none } =
        .formError "Model String is required.") ∧
    settles { name := some "a1", selectedProviderId := some "azure",
              litellm_model_string := some "gpt-4" } 2
      (firstRender { name := some "a1", selectedProviderId := some "azure",
                     litellm_model_string := some "gpt-4" })
      (mountCommit { name := some "a1", selectedProviderId := some "azure",
                     litellm_model_string := some "gpt-4" }) = true ∧
    (∀ extra : Nat,
      (mountForm { name := some "a1", selectedProviderId := some "azure",
                   litellm_model_string := some "gpt-4" } (2 + extra)).selectedProviderId =
        "azure" ∧
      (mountForm { name := some "a1", selectedProviderId := some "azure",
                   litellm_model_string := some "gpt-4" } (2 + extra)).selectedBaseModelId = "" ∧
      handleSubmit { name := some "a1", selectedProviderId := some "azure",
                     litellm_model_string := some "gpt-4" }
          { toFormState :=
              mountForm { name := some "a1", selectedProviderId := some "azure",
                          litellm_model_string := some "gpt-4" } (2 + extra)
            childAgents := [], maxLoops := 3, editingChild := none } =
        .formError "Model String is required.") ∧
    settles { name := some "a1", litellm_model_string := some "azure/gpt-4" } 2
      (firstRender { name := some "a1", litellm_model_string := some "azure/gpt-4" })
      (mountCommit { name := some "a1", litellm_model_string := some "azure/gpt-4" }) = true ∧
    (∀ extra : Nat,
      (mountForm { name := some "a1", litellm_model_string := some "azure/gpt-4" }
        (2 + extra)).selectedProviderId = "azure" ∧
      (mountForm { name := some "a1", litellm_model_string := some "azure/gpt-4" }
        (2 + extra)).selectedBaseModelId = "gpt-4o" ∧
      finalModelStringForSubmit
          (mountForm { name := some "a1", litellm_model_string := some "azure/gpt-4" }
            (2 + extra)).selectedProviderId
          (mountForm { name := some "a1", litellm_model_string := some "azure/gpt-4" }
            (2 + extra)).selectedBaseModelId
          (mountForm { name := some "a1", litellm_model_string := some "azure/gpt-4" }
            (2 + extra)).inputtedModelString = "gpt-4o") := by
  have hp : settles { name := some "a1", litellm_model_string := some "azure/gpt-4" } 2
      (firstRender { name := some "a1", litellm_model_string := some "azure/gpt-4" })
      (mountCommit { name := some "a1", litellm_model_string := some "azure/gpt-4" }) = true := by
    decide
  have hw : settles { name := some "a1",
                      litellm_model_string := some "watsonx/google/flan-t5-xxl" } 3
      (firstRender { name := some "a1",
                     litellm_model_string := some "watsonx/google/flan-t5-xxl" })
      (mountCommit { name := some "a1",
                     litellm_model_string := some "watsonx/google/flan-t5-xxl" }) = true := by
    decide
  have ha : settles { name := some "a1", selectedProviderId := some "azure",
                      litellm_model_string := some "gpt-4" } 2
      (firstRender { name := some "a1", selectedProviderId := some "azure",
                     litellm_model_string := some "gpt-4" })
      (mountCommit { name := some "a1", selectedProviderId := some "azure",
                     litellm_model_string := some "gpt-4" }) = true := by
    decide
  refine ⟨by decide, by decide, hw, ?_, ha, ?_, hp, ?_⟩
  · intro extra
    have hst : mountForm { name := some "a1",
                           litellm_model_string := some "watsonx/google/flan-t5-xxl" }
        (3 + extra) =
        mountForm { name := some "a1",
                    litellm_model_string := some "watsonx/google/flan-t5-xxl" } 3 :=
      settle_of_settles _ 3 _ _ hw extra
    rw [hst]
    decide
  · intro extra
    have hst : mountForm { name := some "a1", selectedProviderId := some "azure",
                           litellm_model_string := some "gpt-4" } (2 + extra) =
        mountForm { name := some "a1", selectedProviderId := some "azure",
                    litellm_model_string := some "gpt-4" } 2 :=
      settle_of_settles _ 2 _ _ ha extra
    rw [hst]
    decide
  · intro extra
    have hst : mountForm { name := some "a1", litellm_model_string := some "azure/gpt-4" }
        (2 + extra) =
        mountForm { name := some "a1", litellm_model_string := some "azure/gpt-4" } 2 :=
      settle_of_settles _ 2 _ _ hp extra
    rw [hst]
    decide

/-- C12. With no provider id and a full model string `prefix/rest` for the
address prefix of a registry provider `P`, the first registry entry, in
registry order, whose prefix matches is `P`, and inference yields the
provider id of `P` and the base model name `rest`. -/
theorem inferInitial_prefixed (P : ProviderDescriptor) (hP : P ∈ MODEL_PROVIDERS_LITELLM)
    (rest : String) :
    MODEL_PROVIDERS_LITELLM.find? (prefixMatches (P.liteLlmModelPrefix ++ "/" ++ rest)) =
      some P ∧
    inferInitial { litellm_model_string := some (P.liteLlmModelPrefix ++ "/" ++ rest) } =
      { initialSelectedProvider := P.id, initialBaseModelName := rest } := by
  have hfind := find_prefix_of_mem P hP rest
  refine ⟨hfind, ?_⟩
  have hne : P.liteLlmModelPrefix ++ "/" ++ rest ≠ "" := by
    intro h
    have hd := congrArg String.data h
    rw [String.data_append, String.data_append] at hd
    simp at hd
  have hlen : P.liteLlmModelPrefix.length + 1 = (P.liteLlmModelPrefix ++ "/").length := by
    rw [String.length_append]
    rfl
  unfold inferInitial
  simp only [truthy, orElse, hne, bne_iff_ne, ne_eq, not_false_eq_true, Bool.not_false,
    Bool.true_and, decide_True, if_true, if_false, hfind, hlen, substringFrom_append,
    Bool.and_self]

/-- The witness of the claim: `openai/gpt-4o` infers `openai` with the base
model `gpt-4o`. -/
theorem inferInitial_prefixed_witness :
    providerOpenAI.liteLlmModelPrefix ++ "/" ++ "gpt-4o" = "openai/gpt-4o" ∧
    providerOpenAI ∈ MODEL_PROVIDERS_LITELLM ∧
    inferInitial
        { litellm_model_string := some (providerOpenAI.liteLlmModelPrefix ++ "/" ++ "gpt-4o") } =
      { initialSelectedProvider := providerOpenAI.id, initialBaseModelName := "gpt-4o" } :=
  ⟨by decide, by decide, (inferInitial_prefixed providerOpenAI (by decide) "gpt-4o").2⟩

/-! ## Sending a message -/

theorem takeWhile_append_cons_of_neg {α : Type} (q : α → Bool) (a : List α) (b : α)
    (c : List α) (ha : ∀ x ∈ a, q x = true) (hb : q b = false) :
    (a ++ b :: c).takeWhile q = a := by
  induction a with
  | nil => simp [List.takeWhile, hb]
  | cons x xs ih =>
    rw [List.cons_append, List.takeWhile_cons, ha x (List.mem_cons_self x xs),
      ih (fun y hy => ha y (List.mem_cons_of_mem x hy))]
    rfl

theorem takeWhile_eq_self_of_all {α : Type} (q : α → Bool) (a : List α)
    (ha : ∀ x ∈ a, q x = true) : a.takeWhile q = a := by
  induction a with
  | nil => rfl
  | cons x xs ih =>
    rw [List.takeWhile_cons, ha x (List.mem_cons_self x xs),
      ih (fun y hy => ha y (List.mem_cons_of_mem x hy))]
    rfl

theorem recentContextMessages_after_last (pre post : List ConversationEntry)
    (p : ConversationEntry) (hp : isProperMessage p = true)
    (hpost : ∀ e ∈ post, isProperMessage e = false) :
    recentContextMessages (pre ++ p :: post) = post := by
  unfold recentContextMessages
  have hrev : (pre ++ p :: post).reverse = post.reverse ++ p :: pre.reverse := by
    simp
  rw [hrev, takeWhile_append_cons_of_neg _ _ _ _
    (fun x hx => by simp [hpost x (List.mem_reverse.mp hx)]) (by simp [hp]),
    List.reverse_reverse]

theorem recentContextMessages_no_proper (conv : List ConversationEntry)
    (h : ∀ e ∈ conv, isProperMessage e = false) : recentContextMessages conv = conv := by
  unfold recentContextMessages
  rw [takeWhile_eq_self_of_all _ _ (fun x hx => by simp [h x (List.mem_reverse.mp hx)]),
    List.reverse_reverse]

theorem sendMessage_some (now : Int) (st : RunnerState) (req : QueryRequest)
    (st1 : RunnerState) (h : sendMessage false now st = some (req, st1)) :
    ¬ (jsTrim st.message = "" ∧ (activeContextItems st.conversation).length = 0) ∧
    req = { combinedMessageForAgent :=
              combinedMessageForAgent (jsTrim st.message) (activeContextItems st.conversation)
            currentSessionId := st.currentSessionId
            activeContextItems := activeContextItems st.conversation } ∧
    st1 = { st with
            conversation := st.conversation ++
              [{ type := .user
                 text := some (userMessageDisplay (jsTrim st.message)
                   (activeContextItems st.conversation))
                 timestamp := now }]
            message := ""
            isLoading := true
            error := none } := by
  unfold sendMessage at h
  simp only [Bool.false_eq_true, if_false] at h
  split_ifs at h with hc
  simp only [Option.some.injEq, Prod.mk.injEq] at h
  exact ⟨hc, h.1.symm, h.2.symm⟩

/-- C13. The context items a request carries are the items of the
`stuffed_context` entries located after the last user, agent or error entry
of the timeline, in timeline order, and the items of all such entries when
the timeline has no user, agent or error entry; entries before the last
such entry contribute nothing. -/
theorem sendMessage_activeContextItems (now : Int) (st : RunnerState) (req : QueryRequest)
    (st1 : RunnerState) (h : sendMessage false now st = some (req, st1)) :
    req.activeContextItems = activeContextItems st.conversation ∧
    (∀ (pre post : List ConversationEntry) (p : ConversationEntry),
      st.conversation = pre ++ p :: post → isProperMessage p = true →
      (∀ e ∈ post, isProperMessage e = false) →
      req.activeContextItems = post.flatMap bundleItems) ∧
    ((∀ e ∈ st.conversation, isProperMessage e = false) →
      req.activeContextItems = st.conversation.flatMap bundleItems) := by
  obtain ⟨_, hreq, _⟩ := sendMessage_some now st req st1 h
  subst hreq
  refine ⟨rfl, ?_, ?_⟩
  · intro pre post p hconv hp hpost
    show activeContextItems st.conversation = _
    unfold activeContextItems
    rw [hconv, recentContextMessages_after_last pre post p hp hpost]
    rfl
  · intro hall
    show activeContextItems st.conversation = _
    unfold activeContextItems
    rw [recentContextMessages_no_proper _ hall]
    rfl

/-- A timeline with one consumed and two unconsumed context bundles: the
request carries the items of the two bundles after the user message. -/
theorem sendMessage_activeContextItems_witness :
    (sendMessage false 7
        { message := "q"
          conversation :=
            [{ type := .stuffed_context, timestamp := 1
               items := some [{ name := "a", content := "A" }] },
             { type := .user, timestamp := 2, text := some "first" },
             { type := .stuffed_context, timestamp := 3
               items := some [{ name := "b", content := "B" }] },
             { type := .stuffed_context, timestamp := 4
               items := some [{ name := "c", content := "C" }] }]
          isLoading := false, error := none, currentSessionId := none }).map
      (fun p => p.1.activeContextItems) =
      some [{ name := "b", content := "B" }, { name := "c", content := "C" }] := by
  have h := (sendMessage_activeContextItems 7
    { message := "q"
      conversation :=
        [{ type := .stuffed_context, timestamp := 1
           items := some [{ name := "a", content := "A" }] },
         { type := .user, timestamp := 2, text := some "first" },
         { type := .stuffed_context, timestamp := 3
           items := some [{ name := "b", content := "B" }] },
         { type := .stuffed_context, timestamp := 4
           items := some [{ name := "c", content := "C" }] }]
      isLoading := false, error := none, currentSessionId := none }
    _ _ rfl).2.1
      [{ type := .stuffed_context, timestamp := 1
         items := some [{ name := "a", content := "A" }] }]
      [{ type := .stuffed_context, timestamp := 3
         items := some [{ name := "b", content := "B" }] },
       { type := .stuffed_context, timestamp := 4
         items := some [{ name := "c", content := "C" }] }]
      { type := .user, timestamp := 2, text := some "first" } rfl (by decide) (by decide)
  exact congrArg some h

/-- C14, counterexample. With the typed text ` hi ` and no unconsumed context
the combined request text is `hi`, not the typed text; and with the typed
text of one blank and one unconsumed context item the placeholder sentence is
used although the typed text is not empty. -/
theorem combinedMessage_trim_counterexample :
    (sendMessage false 0 { RunnerState.initial with message := " hi " }).map
        (fun p => p.1.combinedMessageForAgent) = some "hi" ∧
    "hi" ≠ " hi " ∧
    (sendMessage false 0
        { RunnerState.initial with
          message := " "
          conversation :=
            [{ type := .stuffed_context, timestamp := 0
               items := some [{ name := "x", content := "y" }] }] }).map
        (fun p => p.1.combinedMessageForAgent) =
      some "File: x\n```\ny\n```\n\n---\nUser Query:\n[No explicit user query, process provided context]" ∧
    " " ≠ "" := by
  decide

/-- C14, amended. For every typed text and timeline for which a request is
issued, the combined request text is built from the whitespace-trimmed typed
text: it is the trimmed text alone, which is then not empty, when there is
no unconsumed context item; otherwise it is the items in order, each
rendered as a `File: name` line and its content in a fenced block, joined by
`---` lines and followed by a `User Query:` line and the trimmed text, where
the placeholder sentence replaces the trimmed text exactly when it is
empty. -/
theorem sendMessage_combinedMessage (now : Int) (st : RunnerState) (req : QueryRequest)
    (st1 : RunnerState) (h : sendMessage false now st = some (req, st1)) :
    (activeContextItems st.conversation = [] →
      req.combinedMessageForAgent = jsTrim st.message ∧ jsTrim st.message ≠ "") ∧
    (activeContextItems st.conversation ≠ [] → jsTrim st.message ≠ "" →
      req.combinedMessageForAgent =
        "\n---\n".intercalate ((activeContextItems st.conversation).map renderContextItem) ++
          "\n---\nUser Query:\n" ++ jsTrim st.message) ∧
    (activeContextItems st.conversation ≠ [] → jsTrim st.message = "" →
      req.combinedMessageForAgent =
        "\n---\n".intercalate ((activeContextItems st.conversation).map renderContextItem) ++
          "\n---\nUser Query:\n" ++ "[No explicit user query, process provided context]") ∧
    (∀ item : ContextItem,
      renderContextItem item = "File: " ++ item.name ++ "\n```\n" ++ item.content ++ "\n```\n") := by
  obtain ⟨hc, hreq, _⟩ := sendMessage_some now st req st1 h
  subst hreq
  refine ⟨?_, ?_, ?_, fun _ => rfl⟩
  · intro hitems
    refine ⟨by simp [combinedMessageForAgent, hitems], ?_⟩
    intro ht
    exact hc ⟨ht, by simp [hitems]⟩
  · intro hitems ht
    have hlen : (activeContextItems st.conversation).length > 0 := List.length_pos.mpr hitems
    simp [combinedMessageForAgent, hlen, ht]
  · intro hitems ht
    have hlen : (activeContextItems st.conversation).length > 0 := List.length_pos.mpr hitems
    simp [combinedMessageForAgent, hlen, ht]

/-- The typed text ` hi ` with no context: the request text is the trimmed
text. -/
theorem sendMessage_combinedMessage_witness :
    (sendMessage false 0 { RunnerState.initial with message := " hi " }).map
        (fun p => p.1.combinedMessageForAgent) =
      some (jsTrim { RunnerState.initial with message := " hi " }.message) := by
  have h := ((sendMessage_combinedMessage 0 { RunnerState.initial with message := " hi " }
    _ _ rfl).1 (by decide)).1
  exact congrArg some h

/-! ## Failed exchanges -/

theorem receiveOutcome_failed (now : Int) (outcome : QueryOutcome) (st : RunnerState)
    (hfail : outcomeFailed outcome = true) :
    ∃ e : ConversationEntry,
      (receiveOutcome now outcome st).conversation = st.conversation ++ [e] ∧
      e.type = .error ∧ e.timestamp = now ∧ (∃ text, e.text = some text) ∧
      (receiveOutcome now outcome st).currentSessionId = st.currentSessionId := by
  cases outcome with
  | thrown message => exact ⟨_, rfl, rfl, rfl, ⟨_, rfl⟩, rfl⟩
  | resolved result =>
    have hs : result.success = false := by simpa [outcomeFailed] using hfail
    have hrec : receiveOutcome now (.resolved result) st =
        { st with
          error := some (orElse result.message "Agent query failed. No specific error message.")
          conversation := st.conversation ++
            [{ type := .error
               text := some ("Query Failed: " ++
                 orElse result.message "Agent query failed. No specific error message.")
               events := some (result.events.getD [])
               timestamp := now
               queryErrorDetails := result.queryErrorDetails
               artifactUpdates := extractArtifactUpdates (some (result.events.getD [])) }]
          isLoading := false } := by
      simp [receiveOutcome, hs]
    rw [hrec]
    exact ⟨_, rfl, rfl, rfl, ⟨_, rfl⟩, rfl⟩

/-- C15. For a failed exchange, a response with `success` false or a thrown
error, the handler appends exactly one entry of type `error` after the user
message of that exchange and leaves the held session id unchanged, also when
the failed response carries a session identifier. -/
theorem failed_exchange_appends_one_error (nowSend nowReceive : Int) (text : String)
    (outcome : QueryOutcome) (st : RunnerState) (req : QueryRequest)
    (hreq : exchangeRequest nowSend text st = some req)
    (hfail : outcomeFailed outcome = true) :
    ∃ u e : ConversationEntry,
      (exchange nowSend nowReceive text outcome st).conversation =
        st.conversation ++ [u, e] ∧
      u.type = .user ∧ e.type = .error ∧ (∃ msg, e.text = some msg) ∧
      (exchange nowSend nowReceive text outcome st).currentSessionId = st.currentSessionId := by
  unfold exchangeRequest at hreq
  unfold exchange
  cases hs : sendMessage false nowSend { st with message := text } with
  | none => simp [hs] at hreq
  | some p =>
    obtain ⟨req1, st1⟩ := p
    obtain ⟨_, _, hst1⟩ := sendMessage_some nowSend _ req1 st1 hs
    obtain ⟨e, hconv, hty, _, htext, hsid⟩ := receiveOutcome_failed nowReceive outcome st1 hfail
    refine ⟨{ type := .user
              text := some (userMessageDisplay (jsTrim text) (activeContextItems st.conversation))
              timestamp := nowSend }, e, ?_, rfl, hty, htext, ?_⟩
    · dsimp only
      rw [hconv, hst1]
      simp only [List.append_assoc, List.singleton_append]
    · dsimp only
      rw [hsid, hst1]

/-- A failed response that carries the session identifier `s9`, received
while `s1` is held. -/
theorem failed_exchange_appends_one_error_witness :
    ((exchange 3 4 "b"
        (.resolved { success := false, adkSessionId := some "s9", message := some "boom" })
        (exchange 1 2 "a" (.resolved { success := true, adkSessionId := some "s1" })
          RunnerState.initial)).conversation.map (fun e => e.type) =
      [EntryType.user, EntryType.agent, EntryType.user, EntryType.error]) ∧
    (exchange 3 4 "b"
        (.resolved { success := false, adkSessionId := some "s9", message := some "boom" })
        (exchange 1 2 "a" (.resolved { success := true, adkSessionId := some "s1" })
          RunnerState.initial)).currentSessionId = some "s1" := by
  obtain ⟨u, e, hconv, hu, he, _, hsid⟩ :=
    failed_exchange_appends_one_error 3 4 "b"
      (.resolved { success := false, adkSessionId := some "s9", message := some "boom" })
      (exchange 1 2 "a" (.resolved { success := true, adkSessionId := some "s1" })
        RunnerState.initial)
      { combinedMessageForAgent := "b", currentSessionId := some "s1",
        activeContextItems := [] } (by decide) (by decide)
  refine ⟨?_, ?_⟩
  · rw [hconv, List.map_append]
    simp only [List.map_cons, List.map_nil, hu, he]
    decide
  · rw [hsid]
    decide

/-! ## Shape of the reconstructed timeline -/

theorem parseHistory_of_events_fail (parseEvents : String → Option (List Event))
    (parseItems : String → Option (List ContextItem)) (r : HistoricalRunData)
    (h : eventsParse parseEvents r = false) :
    parseHistory parseEvents parseItems r =
      { agentEvents := [parseErrorEvent]
        artifactUpdatesForHistorical := none
        stuffedContextFromHistory := none } := by
  unfold eventsParse at h
  simp only [Bool.or_eq_false_iff, Bool.not_eq_false'] at h
  have hnone : parseEvents (orElse r.outputEventsRaw "") = none := by
    cases hp : parseEvents (orElse r.outputEventsRaw "") with
    | none => rfl
    | some evs => simp [hp] at h
  unfold parseHistory
  simp only [h.1, hnone, if_true]

theorem parseHistory_of_events_ok (parseEvents : String → Option (List Event))
    (parseItems : String → Option (List ContextItem)) (r : HistoricalRunData)
    (h : eventsParse parseEvents r = true) :
    (parseHistory parseEvents parseItems r).stuffedContextFromHistory =
      recordContext parseItems r ∧
    (contextParseFails parseItems r = true →
      (parseHistory parseEvents parseItems r).agentEvents = [parseErrorEvent]) := by
  unfold eventsParse at h
  unfold parseHistory recordContext contextParseFails
  by_cases ht : truthy r.outputEventsRaw = true
  · simp only [ht, Bool.not_true, Bool.false_or] at h
    obtain ⟨evs, hevs⟩ := Option.isSome_iff_exists.mp h
    simp only [ht, if_true, hevs]
    cases hctx : r.stuffedContextItems with
    | none => simp
    | some sc =>
      cases sc with
      | list items => simp
      | serialized raw =>
        by_cases hraw : raw = ""
        · simp [hraw]
        · cases hp : parseItems raw with
          | none => simp [hraw, hp]
          | some items => simp [hraw, hp]
  · simp only [ht, Bool.false_eq_true, if_false]
    cases hctx : r.stuffedContextItems with
    | none => simp
    | some sc =>
      cases sc with
      | list items => simp
      | serialized raw =>
        by_cases hraw : raw = ""
        · simp [hraw]
        · cases hp : parseItems raw with
          | none => simp [hraw, hp]
          | some items => simp [hraw, hp]

theorem reconstructFromHistory_without_context (parseEvents : String → Option (List Event))
    (parseItems : String → Option (List ContextItem)) (clock : ClockReadings)
    (r : HistoricalRunData)
    (hctx : (parseHistory parseEvents parseItems r).stuffedContextFromHistory = none ∨
      (parseHistory parseEvents parseItems r).stuffedContextFromHistory = some []) :
    reconstructFromHistory parseEvents parseItems clock r =
      [ { type := .user, text := r.inputMessage
          timestamp := match r.timestamp with
            | some t => t
            | none => clock.atUser },
        { type := .agent
          text := some (orElse r.finalResponseText "Agent did not provide a text response.")
          events := some (parseHistory parseEvents parseItems r).agentEvents
          timestamp := match r.timestamp with
            | some t => t + 1000
            | none => clock.atAgent
          queryErrorDetails := r.queryErrorDetails
          artifactUpdates :=
            (parseHistory parseEvents parseItems r).artifactUpdatesForHistorical } ] := by
  unfold reconstructFromHistory
  rcases hctx with h | h <;> simp [h]

theorem reconstructFromHistory_context_shape (parseEvents : String → Option (List Event))
    (parseItems : String → Option (List ContextItem)) (clock : ClockReadings)
    (r : HistoricalRunData) (items : List ContextItem)
    (hctx : (parseHistory parseEvents parseItems r).stuffedContextFromHistory = some items)
    (hne : items ≠ []) :
    reconstructFromHistory parseEvents parseItems clock r =
      [ { type := .stuffed_context_history, items := some items
          timestamp := match r.timestamp with
            | some t => t - 1000
            | none => clock.atContext },
        { type := .user, text := r.inputMessage
          timestamp := match r.timestamp with
            | some t => t
            | none => clock.atUser },
        { type := .agent
          text := some (orElse r.finalResponseText "Agent did not provide a text response.")
          events := some (parseHistory parseEvents parseItems r).agentEvents
          timestamp := match r.timestamp with
            | some t => t + 1000
            | none => clock.atAgent
          queryErrorDetails := r.queryErrorDetails
          artifactUpdates :=
            (parseHistory parseEvents parseItems r).artifactUpdatesForHistorical } ] := by
  have hlen : items.length > 0 := List.length_pos.mpr hne
  unfold reconstructFromHistory
  simp only [hctx, hlen, if_true]
  rfl

/-- C16, counterexample. A record that carries the stuffed-context list
`[{name: "x", content: "y"}]` and a serialized event list that does not
parse is reconstructed as a user message and an agent message only: the
context bundle is missing. -/
theorem reconstruct_shape_counterexample :
    recordContext (fun _ => none)
        { inputMessage := some "hi", outputEventsRaw := some "not json"
          stuffedContextItems := some (.list [{ name := "x", content := "y" }]) } =
      some [{ name := "x", content := "y" }] ∧
    (reconstructFromHistory (fun _ => none) (fun _ => none)
        { atUser := 1000, atContext := 1001, atAgent := 1002 }
        { inputMessage := some "hi", outputEventsRaw := some "not json"
          stuffedContextItems := some (.list [{ name := "x", content := "y" }]) }).map
      (fun e => e.type) = [EntryType.user, EntryType.agent] := by
  decide

/-- C16, amended. For every persisted run record whose serialized event list
is absent or parses, the reconstructed timeline is exactly the context
bundle with the items, the user message with the input text and the agent
message when the record carries a non-empty stuffed-context list, and
exactly the user message and the agent message otherwise; the state loaded
from a record holds that timeline and no session id. -/
theorem reconstruct_shape (parseEvents : String → Option (List Event))
    (parseItems : String → Option (List ContextItem)) (clock : ClockReadings)
    (r : HistoricalRunData) (st : RunnerState)
    (hev : eventsParse parseEvents r = true) :
    (∀ items, recordContext parseItems r = some items → items ≠ [] →
      ∃ c u a : ConversationEntry,
        reconstructFromHistory parseEvents parseItems clock r = [c, u, a] ∧
        c.type = .stuffed_context_history ∧ c.items = some items ∧
        u.type = .user ∧ u.text = r.inputMessage ∧ a.type = .agent) ∧
    ((recordContext parseItems r = none ∨ recordContext parseItems r = some []) →
      ∃ u a : ConversationEntry,
        reconstructFromHistory parseEvents parseItems clock r = [u, a] ∧
        u.type = .user ∧ u.text = r.inputMessage ∧ a.type = .agent) ∧
    (loadHistory parseEvents parseItems clock r st).conversation =
      reconstructFromHistory parseEvents parseItems clock r ∧
    (loadHistory parseEvents parseItems clock r st).currentSessionId = none := by
  have hstuffed := (parseHistory_of_events_ok parseEvents parseItems r hev).1
  refine ⟨?_, ?_, rfl, rfl⟩
  · intro items hitems hne
    exact ⟨_, _, _,
      reconstructFromHistory_context_shape parseEvents parseItems clock r items
        (hstuffed.trans hitems) hne,
      rfl, rfl, rfl, rfl, rfl⟩
  · intro hnone
    exact ⟨_, _,
      reconstructFromHistory_without_context parseEvents parseItems clock r
        (by rw [hstuffed]; exact hnone),
      rfl, rfl, rfl⟩

/-- The record with `inputMessage = "hi"`, one context item and no event
list. -/
theorem reconstruct_shape_witness :
    (reconstructFromHistory (fun _ => none) (fun _ => none)
        { atUser := 1000, atContext := 1001, atAgent := 1002 }
        { inputMessage := some "hi"
          stuffedContextItems := some (.list [{ name := "x", content := "y" }]) }).map
      (fun e => e.type) =
      [EntryType.stuffed_context_history, EntryType.user, EntryType.agent] := by
  obtain ⟨c, u, a, h, hc, _, hu, _, ha⟩ :=
    (reconstruct_shape (fun _ => none) (fun _ => none)
      { atUser := 1000, atContext := 1001, atAgent := 1002 }
      { inputMessage := some "hi"
        stuffedContextItems := some (.list [{ name := "x", content := "y" }]) }
      RunnerState.initial (by decide)).1 [{ name := "x", content := "y" }] (by decide)
      (by decide)
  rw [h]
  simp [hc, hu, ha]

/-- C17. For every persisted run record whose serialized event list, or
whose serialized context-item list, is present and fails to parse, the
reconstructed timeline is the user message with the input text followed by
an agent message whose event list is the one synthetic event of type
`error`. -/
theorem reconstruct_parse_failure (parseEvents : String → Option (List Event))
    (parseItems : String → Option (List ContextItem)) (clock : ClockReadings)
    (r : HistoricalRunData)
    (hfail : eventsParse parseEvents r = false ∨ contextParseFails parseItems r = true) :
    ∃ u a : ConversationEntry,
      reconstructFromHistory parseEvents parseItems clock r = [u, a] ∧
      u.type = .user ∧ u.text = r.inputMessage ∧
      a.type = .agent ∧ a.events = some [parseErrorEvent] ∧
      parseErrorEvent.type = some "error" := by
  have hparsed : (parseHistory parseEvents parseItems r).stuffedContextFromHistory = none ∧
      (parseHistory parseEvents parseItems r).agentEvents = [parseErrorEvent] := by
    by_cases hev : eventsParse parseEvents r = true
    · have hctx : contextParseFails parseItems r = true := by
        rcases hfail with h | h
        · rw [hev] at h
          exact absurd h (by decide)
        · exact h
      obtain ⟨h1, h2⟩ := parseHistory_of_events_ok parseEvents parseItems r hev
      refine ⟨?_, h2 hctx⟩
      rw [h1]
      unfold contextParseFails at hctx
      unfold recordContext
      cases hsc : r.stuffedContextItems with
      | none => rfl
      | some sc =>
        cases sc with
        | list items => simp [hsc] at hctx
        | serialized raw =>
          simp only [hsc, Bool.and_eq_true, bne_iff_ne, ne_eq,
            Option.isNone_iff_eq_none] at hctx
          simp [hctx.1, hctx.2]
    · have hev2 : eventsParse parseEvents r = false := by simpa using hev
      rw [parseHistory_of_events_fail parseEvents parseItems r hev2]
      exact ⟨rfl, rfl⟩
  refine ⟨_, _,
    reconstructFromHistory_without_context parseEvents parseItems clock r (Or.inl hparsed.1),
    rfl, rfl, rfl, ?_, rfl⟩
  show some (parseHistory parseEvents parseItems r).agentEvents = some [parseErrorEvent]
  rw [hparsed.2]

/-- A record whose events parse and whose serialized context does not. -/
theorem reconstruct_parse_failure_witness :
    (reconstructFromHistory (fun _ => some [{ type := some "text" }]) (fun _ => none)
        { atUser := 1000, atContext := 1001, atAgent := 1002 }
        { inputMessage := some "hi", outputEventsRaw := some "[...]"
          stuffedContextItems := some (.serialized "not json") }).map
      (fun e => e.type) = [EntryType.user, EntryType.agent] ∧
    ((reconstructFromHistory (fun _ => some [{ type := some "text" }]) (fun _ => none)
        { atUser := 1000, atContext := 1001, atAgent := 1002 }
        { inputMessage := some "hi", outputEventsRaw := some "[...]"
          stuffedContextItems := some (.serialized "not json") }).map
      (fun e => e.events)).getLast? = some (some [parseErrorEvent]) := by
  obtain ⟨u, a, h, hu, _, ha, hev, _⟩ :=
    reconstruct_parse_failure (fun _ => some [{ type := some "text" }]) (fun _ => none)
      { atUser := 1000, atContext := 1001, atAgent := 1002 }
      { inputMessage := some "hi", outputEventsRaw := some "[...]"
        stuffedContextItems := some (.serialized "not json") } (Or.inr (by decide))
  rw [h]
  simp [hu, ha, hev]

/-! ## Submit -/

theorem isModelType_false_of_composite (agentType : String)
    (h : isCompositeType agentType = true) : isModelType agentType = false := by
  simp only [isCompositeType, Bool.or_eq_true, beq_iff_eq] at h
  rcases h with rfl | rfl <;> decide

theorem isCompositeType_false_of_model (agentType : String)
    (h : isModelType agentType = true) : isCompositeType agentType = false := by
  simp only [isModelType, Bool.or_eq_true, beq_iff_eq] at h
  rcases h with rfl | rfl <;> decide

theorem handleSubmit_composite (d : InitialData) (st : AgentFormState)
    (hc : isCompositeType st.agentType = true) (hname : validateAgentName st.name = none)
    (hne : st.childAgents ≠ []) :
    handleSubmit d st = .submitted (agentDataToSubmit d st) := by
  have hlen : ¬ st.childAgents.length = 0 := by
    intro h
    exact hne (List.length_eq_zero.mp h)
  have hm := isModelType_false_of_composite st.agentType hc
  unfold handleSubmit
  simp only [hname, hc, hlen, hm, and_false, if_false, Bool.false_eq_true]

theorem handleSubmit_submitted (d : InitialData) (st : AgentFormState) (data : AgentData)
    (h : handleSubmit d st = .submitted data) : data = agentDataToSubmit d st := by
  unfold handleSubmit at h
  split at h
  · exact SubmitResult.noConfusion h
  · split_ifs at h
    simp only [SubmitResult.submitted.injEq] at h
    exact h.symm

/-- C18, counterexample. A sequential agent whose one child is itself a
sequential agent with a child carrying the identifier `g1` is submitted with
that identifier still on the grandchild: only the direct child has lost its
`id`. -/
theorem handleSubmit_nested_id_counterexample :
    (match handleSubmit {}
        { toFormState := initFromData { name := some "seq", agentType := some "SequentialAgent" }
          childAgents :=
            [{ props := { id := some "c1", name := some "inner",
                          agentType := some "SequentialAgent" }
               childAgents :=
                 [{ props := { id := some "g1", name := some "leaf" }, childAgents := [] }] }]
          maxLoops := 3
          editingChild := none } with
     | .submitted data =>
       data.childAgents.map
         (fun cs => cs.map (fun c => (c.props.id, c.childAgents.map (fun g => g.props.id))))
     | _ => none) = some [(none, [some "g1"])] := by
  decide

/-- C18, amended. For every submitted SequentialAgent or ParallelAgent
configuration, the submitted children are the children held by the form,
in order, each without the member `id`; the children of a child are
submitted as the form holds them. -/
theorem handleSubmit_children_without_id (d : InitialData) (st : AgentFormState)
    (data : AgentData) (hc : isCompositeType st.agentType = true)
    (h : handleSubmit d st = .submitted data) :
    data.childAgents = some (st.childAgents.map submitChild) ∧
    (∀ cs, data.childAgents = some cs → ∀ c ∈ cs, c.props.id = none) ∧
    (∀ c : ChildAgent, (submitChild c).props.id = none ∧
      (submitChild c).childAgents = c.childAgents) := by
  have hdata : data.childAgents = some (st.childAgents.map submitChild) := by
    rw [handleSubmit_submitted d st data h]
    simp [agentDataToSubmit, hc]
  refine ⟨hdata, ?_, fun c => ⟨rfl, rfl⟩⟩
  intro cs hcs c hmem
  rw [hdata] at hcs
  cases hcs
  obtain ⟨c0, _, rfl⟩ := List.mem_map.mp hmem
  rfl

/-- A sequential agent with one child carrying the identifier `c1`. -/
theorem handleSubmit_children_without_id_witness :
    (match handleSubmit {}
        { toFormState := initFromData { name := some "seq", agentType := some "SequentialAgent" }
          childAgents := [{ props := { id := some "c1", name := some "leaf" }, childAgents := [] }]
          maxLoops := 3
          editingChild := none } with
     | .submitted data => data.childAgents
     | _ => none) =
      some (([{ props := { id := some "c1", name := some "leaf" }, childAgents := [] }] :
        List ChildAgent).map submitChild) := by
  have hdata := handleSubmit_composite {}
    { toFormState := initFromData { name := some "seq", agentType := some "SequentialAgent" }
      childAgents := [{ props := { id := some "c1", name := some "leaf" }, childAgents := [] }]
      maxLoops := 3
      editingChild := none } (by decide) (by decide) (by decide)
  have h := (handleSubmit_children_without_id {} _ _ (by decide) hdata).1
  rw [hdata]
  exact h

theorem handleSubmit_composite_empty (d : InitialData) (st : AgentFormState)
    (hc : isCompositeType st.agentType = true) (hname : validateAgentName st.name = none)
    (hempty : st.childAgents = []) :
    handleSubmit d st =
      .formError ("A " ++ st.agentType ++ " requires at least one child agent/step.") := by
  unfold handleSubmit
  simp only [hname, hc, hempty, List.length_nil, and_self, if_true]

/-- C19. For a SequentialAgent or ParallelAgent configuration with a valid
name, submit reports the missing-children error when the children list is
empty and reports no error, handing the configuration to `onSubmit`, when
the list is not empty, in particular after one child has been added through
the child form or imported from an existing agent; no model address is
required. -/
theorem composite_children_required (d : InitialData) (st : AgentFormState)
    (hc : isCompositeType st.agentType = true) (hname : validateAgentName st.name = none) :
    (st.childAgents = [] →
      handleSubmit d st =
        .formError ("A " ++ st.agentType ++ " requires at least one child agent/step.")) ∧
    (st.childAgents ≠ [] → handleSubmit d st = .submitted (agentDataToSubmit d st)) ∧
    (∀ (uuid : String) (child : ChildAgent), st.editingChild = none →
      handleSubmit d (handleSaveChildAgent uuid child st) =
        .submitted (agentDataToSubmit d (handleSaveChildAgent uuid child st))) ∧
    (∀ (uuid : String) (config : ChildAgent),
      handleSubmit d (handleExistingAgentSelected uuid config st) =
        .submitted (agentDataToSubmit d (handleExistingAgentSelected uuid config st))) := by
  refine ⟨handleSubmit_composite_empty d st hc hname, handleSubmit_composite d st hc hname,
    ?_, ?_⟩
  · intro uuid child hedit
    apply handleSubmit_composite
    · simpa [handleSaveChildAgent, hedit] using hc
    · simpa [handleSaveChildAgent, hedit] using hname
    · simp [handleSaveChildAgent, hedit]
  · intro uuid config
    apply handleSubmit_composite
    · simpa [handleExistingAgentSelected] using hc
    · simpa [handleExistingAgentSelected] using hname
    · simp [handleExistingAgentSelected]

/-- A sequential agent with a valid name, no child and no model address:
the empty list is rejected, and the list with one added child is accepted. -/
theorem composite_children_required_witness :
    handleSubmit {}
        { toFormState := initFromData { name := some "seq", agentType := some "SequentialAgent",
                                        selectedProviderId := some "watsonx" }
          childAgents := [], maxLoops := 3, editingChild := none } =
      .formError "A SequentialAgent requires at least one child agent/step." ∧
    (match handleSubmit {}
        (handleSaveChildAgent "u1" { props := { name := some "leaf" }, childAgents := [] }
          { toFormState := initFromData { name := some "seq", agentType := some "SequentialAgent",
                                          selectedProviderId := some "watsonx" }
            childAgents := [], maxLoops := 3, editingChild := none }) with
     | .submitted data => some data.litellm_model_string
     | _ => none) = some "" := by
  have h := composite_children_required {}
    { toFormState := initFromData { name := some "seq", agentType := some "SequentialAgent",
                                    selectedProviderId := some "watsonx" }
      childAgents := [], maxLoops := 3, editingChild := none } (by decide) (by decide)
  refine ⟨h.1 rfl, ?_⟩
  rw [h.2.2.1 "u1" { props := { name := some "leaf" }, childAgents := [] } rfl]
  decide

/-- C20. For an Agent or LoopAgent configuration with a valid name, submit
fails with the model-required error exactly when the final model address is
empty, the final address being the whitespace-trimmed typed string for the
providers `custom` and `openai_compatible` and the base-model selection for
every other provider; with a non-empty final address the configuration is
handed to `onSubmit` with that address. -/
theorem model_required_iff (d : InitialData) (st : AgentFormState)
    (hm : isModelType st.agentType = true) (hname : validateAgentName st.name = none) :
    (handleSubmit d st = .formError "Model String is required." ↔
      finalModelStringForSubmit st.selectedProviderId st.selectedBaseModelId
        st.inputtedModelString = "") ∧
    (finalModelStringForSubmit st.selectedProviderId st.selectedBaseModelId
        st.inputtedModelString ≠ "" →
      handleSubmit d st = .submitted (agentDataToSubmit d st) ∧
      (agentDataToSubmit d st).litellm_model_string =
        finalModelStringForSubmit st.selectedProviderId st.selectedBaseModelId
          st.inputtedModelString) ∧
    ((st.selectedProviderId = "custom" ∨ st.selectedProviderId = "openai_compatible") →
      finalModelStringForSubmit st.selectedProviderId st.selectedBaseModelId
        st.inputtedModelString = jsTrim st.inputtedModelString) ∧
    (st.selectedProviderId ≠ "custom" → st.selectedProviderId ≠ "openai_compatible" →
      finalModelStringForSubmit st.selectedProviderId st.selectedBaseModelId
        st.inputtedModelString = st.selectedBaseModelId) := by
  have hc := isCompositeType_false_of_model st.agentType hm
  have hsub : handleSubmit d st =
      if finalModelStringForSubmit st.selectedProviderId st.selectedBaseModelId
          st.inputtedModelString = "" then .formError "Model String is required."
      else .submitted (agentDataToSubmit d st) := by
    unfold handleSubmit
    simp only [hname, hc, hm, Bool.false_eq_true, false_and, if_false, and_true]
  refine ⟨?_, ?_, ?_, ?_⟩
  · rw [hsub]
    constructor
    · intro h
      by_contra hne
      rw [if_neg hne] at h
      exact SubmitResult.noConfusion h
    · intro h
      rw [if_pos h]
  · intro hne
    rw [hsub, if_neg hne]
    exact ⟨rfl, rfl⟩
  · intro hp
    have : isFreeFormProvider st.selectedProviderId = true := by
      rcases hp with h | h <;> simp [isFreeFormProvider, h]
    simp [finalModelStringForSubmit, this]
  · intro h1 h2
    have : isFreeFormProvider st.selectedProviderId = false := by
      simp [isFreeFormProvider, h1, h2]
    simp [finalModelStringForSubmit, this]

/-- An agent on the provider `custom` whose typed model string is blank. -/
theorem model_required_iff_witness :
    handleSubmit {}
        { toFormState :=
            { initFromData { name := some "a1", selectedProviderId := some "custom" } with
              inputtedModelString := "   " }
          childAgents := [], maxLoops := 3, editingChild := none } =
      .formError "Model String is required." :=
  (model_required_iff {}
    { toFormState :=
        { initFromData { name := some "a1", selectedProviderId := some "custom" } with
          inputtedModelString := "   " }
      childAgents := [], maxLoops := 3, editingChild := none }
    (by decide) (by decide)).1.mpr (by decide)

/-! ## Provider switch: model and key -/

theorem switchProvider_litellmApiKey (d : InitialData) (st : FormState)
    (providerId : String) :
    (switchProvider d st providerId).litellmApiKey =
      (match getLiteLLMProviderConfig providerId with
       | some _ => ""
       | none => st.litellmApiKey) := by
  have h3 : ∀ s : FormState, (baseModelEffect s).litellmApiKey = s.litellmApiKey := by
    intro s
    unfold baseModelEffect
    split_ifs <;> rfl
  unfold switchProvider
  rw [h3]
  unfold providerEffect
  cases getLiteLLMProviderConfig providerId with
  | none => rfl
  | some providerConf => rfl

/-- C21. After a switch to a registry provider `P` with a non-empty catalog
the base-model selection is the previous selection when that is in the
catalog of `P` and the first catalog entry of `P` otherwise, and it is in
the catalog of `P` in both cases. -/
theorem switchProvider_baseModel (d : InitialData) (st : FormState)
    (P : ProviderDescriptor) (hP : P ∈ MODEL_PROVIDERS_LITELLM) (first : ModelEntry)
    (rest : List ModelEntry) (hmodels : P.models = first :: rest) :
    (switchProvider d st P.id).selectedBaseModelId =
      (if st.selectedBaseModelId ∈ catalogIds P then st.selectedBaseModelId else first.id) ∧
    (switchProvider d st P.id).selectedBaseModelId ∈ catalogIds P := by
  have hfree : isFreeFormProvider P.id = false := by
    simp only [List.mem_cons, MODEL_PROVIDERS_LITELLM, List.mem_singleton, List.not_mem_nil,
      or_false] at hP
    rcases hP with rfl | rfl | rfl <;> decide
  have hfirst : first.id ∈ catalogIds P := by
    simp [catalogIds, hmodels]
  have heq : (switchProvider d st P.id).selectedBaseModelId =
      (if st.selectedBaseModelId ∈ catalogIds P then st.selectedBaseModelId else first.id) := by
    rw [switchProvider_selectedBaseModelId]
    unfold switchedBaseModel
    simp only [getLiteLLMProviderConfig_of_mem P hP, hfree, Bool.false_eq_true, if_false,
      hmodels]
    by_cases hk : st.selectedBaseModelId ∈ catalogIds P
    · have hs := (modelsSome_iff_mem P st.selectedBaseModelId).mpr hk
      rw [if_pos hk]
      simp only [modelsSome, hmodels] at hs
      simp [modelsSome, hmodels, hs]
    · have hs : modelsSome P st.selectedBaseModelId = false := by
        rw [← Bool.not_eq_true, modelsSome_iff_mem]
        exact hk
      rw [if_neg hk]
      simp only [modelsSome, hmodels] at hs
      simp [modelsSome, hmodels, hs]
  refine ⟨heq, ?_⟩
  rw [heq]
  split_ifs with hk
  · exact hk
  · exact hfirst

/-- A switch to `deepinfra` from a selection of the `openai` catalog. -/
theorem switchProvider_baseModel_witness :
    providerDeepInfra ∈ MODEL_PROVIDERS_LITELLM ∧
    (switchProvider {}
        (initFromData { selectedProviderId := some "openai",
                        litellm_model_string := some "gpt-4o" })
        providerDeepInfra.id).selectedBaseModelId ∈ catalogIds providerDeepInfra :=
  ⟨by decide,
    (switchProvider_baseModel {}
      (initFromData { selectedProviderId := some "openai",
                      litellm_model_string := some "gpt-4o" })
      providerDeepInfra (by decide)
      { id := "meta-llama/Llama-3.3-70B-Instruct-Turbo",
        name := "Llama 3.3 70B Instruct Turbo (DeepInfra)" } _ rfl).2⟩

/-- C22. Every provider switch leaves the API-key override empty: for every
form state and every provider id the provider select offers, the key is
empty after the switch, and it is empty again after a switch to any offered
provider followed by a switch to the first one, so also after a switch back
to the original provider. -/
theorem switchProvider_clears_key (d : InitialData) (st : FormState) (providerId : String)
    (h : providerId ∈ providerSelectOptions) :
    (switchProvider d st providerId).litellmApiKey = "" ∧
    (∀ other ∈ providerSelectOptions,
      (switchProvider d (switchProvider d st other) providerId).litellmApiKey = "") ∧
    (st.selectedProviderId = providerId →
      ∀ other ∈ providerSelectOptions,
        (switchProvider d (switchProvider d st other) st.selectedProviderId).litellmApiKey =
          "") := by
  have hkey : ∀ s : FormState, (switchProvider d s providerId).litellmApiKey = "" := by
    intro s
    obtain ⟨P, hP, rfl⟩ := List.mem_map.mp h
    rw [switchProvider_litellmApiKey, getLiteLLMProviderConfig_of_mem P hP]
  refine ⟨hkey st, fun other _ => hkey _, ?_⟩
  intro hsame other _
  rw [hsame]
  exact hkey _

/-- With `openai` selected and the key `sk-1` typed into the key field, a
switch to `watsonx` empties the key, and so does the switch back to
`openai`. -/
theorem switchProvider_clears_key_witness :
    "watsonx" ∈ providerSelectOptions ∧ "openai" ∈ providerSelectOptions ∧
    (editApiKey (initFromData { selectedProviderId := some "openai" }) "sk-1").litellmApiKey =
      "sk-1" ∧
    (switchProvider {}
        (editApiKey (initFromData { selectedProviderId := some "openai" }) "sk-1")
        "watsonx").litellmApiKey = "" ∧
    (switchProvider {}
        (switchProvider {}
          (editApiKey (initFromData { selectedProviderId := some "openai" }) "sk-1")
          "watsonx")
        "openai").litellmApiKey = "" :=
  ⟨by decide, by decide, by decide,
    (switchProvider_clears_key {}
      (editApiKey (initFromData { selectedProviderId := some "openai" }) "sk-1")
      "watsonx" (by decide)).1,
    (switchProvider_clears_key {}
      (editApiKey (initFromData { selectedProviderId := some "openai" }) "sk-1")
      "openai" (by decide)).2.1 "watsonx" (by decide)⟩

/-- C30. Code divergence: with the provider `openai` selected and the API-key
override `sk-1` entered, typing a base URL into the API base-URL field
empties the key, and so does choosing another base model; the provider is
the same before and after. -/
theorem edit_clears_key :
    (editApiKey (initFromData { selectedProviderId := some "openai" }) "sk-1").litellmApiKey =
      "sk-1" ∧
    (editApiBase {}
        (editApiKey (initFromData { selectedProviderId := some "openai" }) "sk-1")
        "http://localhost:4000").litellmApiKey = "" ∧
    (editApiBase {}
        (editApiKey (initFromData { selectedProviderId := some "openai" }) "sk-1")
        "http://localhost:4000").selectedProviderId = "openai" ∧
    (selectBaseModel {}
        (editApiKey (initFromData { selectedProviderId := some "openai" }) "sk-1")
        "o4-mini-2025-04-16").litellmApiKey = "" ∧
    (selectBaseModel {}
        (editApiKey (initFromData { selectedProviderId := some "openai" }) "sk-1")
        "o4-mini-2025-04-16").selectedProviderId = "openai" := by
  decide

/-! ## Submit: model string and API base -/

/-- C26. Code divergence: for an agent with the valid name `a1` on the
provider `watsonx`, whose catalog is empty and for which the form renders the
model string field, the typed model string `google/flan-t5-xxl` does not
pass submit: the handler takes the empty base-model selection as the model
address and reports that the model string is required. -/
theorem handleSubmit_watsonx_typed_model_rejected :
    providerWatsonX.models = [] ∧
    showsModelStringField
      (editModelString (switchProvider {} (initFromData { name := some "a1" }) "watsonx")
        "google/flan-t5-xxl") = true ∧
    (editModelString (switchProvider {} (initFromData { name := some "a1" }) "watsonx")
        "google/flan-t5-xxl").inputtedModelString = "google/flan-t5-xxl" ∧
    validateAgentName "a1" = none ∧
    handleSubmit {}
        { toFormState :=
            editModelString (switchProvider {} (initFromData { name := some "a1" }) "watsonx")
              "google/flan-t5-xxl"
          childAgents := [], maxLoops := 3, editingChild := none } =
      .formError "Model String is required." := by
  decide

/-- C27. Code divergence: for the selected provider id `custom`, which has
no registry entry and so no default API base, the entered API base
`http://localhost:11434` is not submitted: the member `litellm_api_base` of
the submitted object is absent. For `watsonx` the same entry is submitted,
trimmed. -/
theorem handleSubmit_custom_apiBase_dropped :
    getLiteLLMProviderConfig "custom" = none ∧
    (match handleSubmit {}
        { toFormState :=
            editModelString
              (initFromData { name := some "a1", selectedProviderId := some "custom",
                              litellm_api_base := some "http://localhost:11434" })
              "ollama/mistral"
          childAgents := [], maxLoops := 3, editingChild := none } with
     | .submitted data =>
       some (data.selectedProviderId, data.litellm_model_string, data.litellm_api_base)
     | _ => none) = some ("custom", "ollama/mistral", none) ∧
    submitApiBase
      (initFromData { name := some "a1", selectedProviderId := some "watsonx",
                      litellm_api_base := some " http://localhost:11434 " }) =
      some "http://localhost:11434" := by
  decide

/-! ## Child-list operations -/

theorem orElse_present (v d : String) (hv : v ≠ "") : orElse (some v) d = v := by
  simp [orElse, hv]

theorem orElse_missing (x : Option String) (d : String) (hx : x = none ∨ x = some "") :
    orElse x d = d := by
  rcases hx with rfl | rfl <;> simp [orElse]

theorem orNull_present (v : String) (hv : v ≠ "") : orNull (some v) = some v := by
  simp [orNull, truthy, hv]

theorem orNull_missing (x : Option String) (hx : x = none ∨ x = some "") : orNull x = none := by
  rcases hx with rfl | rfl <;> simp [orNull, truthy]

/-- C23. Importing an existing agent definition as a child appends exactly
one node after the children held, which stay as they are, and changes no
other cell of the form. The identifier of the node is the generated one,
whatever the identifier of the imported definition; its name, description and
own children are those of the imported definition. The type, provider,
model, instruction and output key are the imported value when that is
present and not empty, and otherwise `Agent`, `openai`, `gpt-4o`, the empty
string and the empty string; an API base or key that is absent or empty is
absent in the node; tools and repository URLs are the imported lists, or
empty when absent; code execution is the imported flag, or off when absent;
`maxLoops` is the imported number when that is present and not zero, and
otherwise 3. -/
theorem handleExistingAgentSelected_appends (uuid : String) (config : ChildAgent)
    (st : AgentFormState) :
    ∃ node : ChildAgent,
      (handleExistingAgentSelected uuid config st).childAgents = st.childAgents ++ [node] ∧
      (handleExistingAgentSelected uuid config st).childAgents.length =
        st.childAgents.length + 1 ∧
      (handleExistingAgentSelected uuid config st).toFormState = st.toFormState ∧
      (handleExistingAgentSelected uuid config st).maxLoops = st.maxLoops ∧
      (handleExistingAgentSelected uuid config st).editingChild = st.editingChild ∧
      node.props.id = some uuid ∧
      node.props.name = config.props.name ∧
      node.props.description = config.props.description ∧
      node.childAgents = config.childAgents ∧
      (∀ v : String, config.props.agentType = some v → v ≠ "" →
        node.props.agentType = some v) ∧
      (config.props.agentType = none ∨ config.props.agentType = some "" →
        node.props.agentType = some "Agent") ∧
      (∀ v : String, config.props.selectedProviderId = some v → v ≠ "" →
        node.props.selectedProviderId = some v) ∧
      (config.props.selectedProviderId = none ∨ config.props.selectedProviderId = some "" →
        node.props.selectedProviderId = some "openai") ∧
      (∀ v : String, config.props.litellm_model_string = some v → v ≠ "" →
        node.props.litellm_model_string = some v) ∧
      (config.props.litellm_model_string = none ∨ config.props.litellm_model_string = some "" →
        node.props.litellm_model_string = some "gpt-4o") ∧
      (∀ v : String, config.props.litellm_api_base = some v → v ≠ "" →
        node.props.litellm_api_base = some v) ∧
      (config.props.litellm_api_base = none ∨ config.props.litellm_api_base = some "" →
        node.props.litellm_api_base = none) ∧
      (∀ v : String, config.props.litellm_api_key = some v → v ≠ "" →
        node.props.litellm_api_key = some v) ∧
      (config.props.litellm_api_key = none ∨ config.props.litellm_api_key = some "" →
        node.props.litellm_api_key = none) ∧
      (∀ v : String, config.props.instruction = some v → node.props.instruction = some v) ∧
      (config.props.instruction = none → node.props.instruction = some "") ∧
      (∀ v : String, config.props.outputKey = some v → node.props.outputKey = some v) ∧
      (config.props.outputKey = none → node.props.outputKey = some "") ∧
      (∀ ts : List ToolRef, config.props.tools = some ts → node.props.tools = some ts) ∧
      (config.props.tools = none → node.props.tools = some []) ∧
      (∀ us : List String, config.props.usedCustomRepoUrls = some us →
        node.props.usedCustomRepoUrls = some us) ∧
      (config.props.usedCustomRepoUrls = none → node.props.usedCustomRepoUrls = some []) ∧
      (∀ b : Bool, config.props.enableCodeExecution = some b →
        node.props.enableCodeExecution = some b) ∧
      (config.props.enableCodeExecution = none →
        node.props.enableCodeExecution = some false) ∧
      (∀ n : Nat, config.props.maxLoops = some n → n ≠ 0 → node.props.maxLoops = some n) ∧
      (config.props.maxLoops = none ∨ config.props.maxLoops = some 0 →
        node.props.maxLoops = some 3) := by
  refine ⟨_, rfl, ?_, rfl, rfl, rfl, rfl, rfl, rfl, rfl, ?_, ?_, ?_, ?_, ?_, ?_, ?_, ?_, ?_, ?_,
    ?_, ?_, ?_, ?_, ?_, ?_, ?_, ?_, ?_, ?_, ?_, ?_⟩
  · simp [handleExistingAgentSelected]
  · intro v h hv
    show some (orElse config.props.agentType "Agent") = some v
    rw [h, orElse_present v _ hv]
  · intro h
    show some (orElse config.props.agentType "Agent") = some "Agent"
    rw [orElse_missing _ _ h]
  · intro v h hv
    show some (orElse config.props.selectedProviderId DEFAULT_LITELLM_PROVIDER_ID) = some v
    rw [h, orElse_present v _ hv]
  · intro h
    show some (orElse config.props.selectedProviderId DEFAULT_LITELLM_PROVIDER_ID) = some "openai"
    rw [orElse_missing _ _ h]
    rfl
  · intro v h hv
    show some (orElse config.props.litellm_model_string DEFAULT_LITELLM_BASE_MODEL_ID) = some v
    rw [h, orElse_present v _ hv]
  · intro h
    show some (orElse config.props.litellm_model_string DEFAULT_LITELLM_BASE_MODEL_ID) =
      some "gpt-4o"
    rw [orElse_missing _ _ h]
    rfl
  · intro v h hv
    show orNull config.props.litellm_api_base = some v
    rw [h, orNull_present v hv]
  · intro h
    show orNull config.props.litellm_api_base = none
    rw [orNull_missing _ h]
  · intro v h hv
    show orNull config.props.litellm_api_key = some v
    rw [h, orNull_present v hv]
  · intro h
    show orNull config.props.litellm_api_key = none
    rw [orNull_missing _ h]
  · intro v h
    show some (orElse config.props.instruction "") = some v
    rw [h]
    by_cases hv : v = ""
    · subst hv
      rfl
    · rw [orElse_present v _ hv]
  · intro h
    show some (orElse config.props.instruction "") = some ""
    rw [h]
    rfl
  · intro v h
    show some (orElse config.props.outputKey "") = some v
    rw [h]
    by_cases hv : v = ""
    · subst hv
      rfl
    · rw [orElse_present v _ hv]
  · intro h
    show some (orElse config.props.outputKey "") = some ""
    rw [h]
    rfl
  · intro ts h
    show some (config.props.tools.getD []) = some ts
    rw [h]
    rfl
  · intro h
    show some (config.props.tools.getD []) = some []
    rw [h]
    rfl
  · intro us h
    show some (config.props.usedCustomRepoUrls.getD []) = some us
    rw [h]
    rfl
  · intro h
    show some (config.props.usedCustomRepoUrls.getD []) = some []
    rw [h]
    rfl
  · intro b h
    show some (config.props.enableCodeExecution.getD false) = some b
    rw [h]
    rfl
  · intro h
    show some (config.props.enableCodeExecution.getD false) = some false
    rw [h]
    rfl
  · intro n h hn
    show some (match config.props.maxLoops with
      | none => 3
      | some n => if n = 0 then 3 else n) = some n
    rw [h]
    simp [hn]
  · intro h
    show some (match config.props.maxLoops with
      | none => 3
      | some n => if n = 0 then 3 else n) = some 3
    rcases h with h | h
    · rw [h]
    · rw [h]
      rfl

/-- The import of a definition with the id `orig`, no type, an empty provider
id, the model `o4-mini-2025-04-16`, an empty API key and `maxLoops` 0 into a
form that holds one child. -/
theorem handleExistingAgentSelected_appends_witness :
    ∃ node : ChildAgent,
      (handleExistingAgentSelected "u1"
          { props := { id := some "orig", name := some "helper", selectedProviderId := some "",
                       litellm_model_string := some "o4-mini-2025-04-16",
                       litellm_api_key := some "", maxLoops := some 0 },
            childAgents := [] }
          { toFormState := initFromData {}
            childAgents := [{ props := { id := some "c1", name := some "first" },
                              childAgents := [] }]
            maxLoops := 3, editingChild := none }).childAgents =
        [{ props := { id := some "c1", name := some "first" }, childAgents := [] }, node] ∧
      node.props.id = some "u1" ∧
      node.props.name = some "helper" ∧
      node.props.agentType = some "Agent" ∧
      node.props.selectedProviderId = some "openai" ∧
      node.props.litellm_model_string = some "o4-mini-2025-04-16" ∧
      node.props.litellm_api_base = none ∧
      node.props.litellm_api_key = none ∧
      node.props.instruction = some "" ∧
      node.props.tools = some [] ∧
      node.props.maxLoops = some 3 := by
  obtain ⟨node, happ, _, _, _, _, hid, hname, _, _, _, htype, _, hprov, hmodel, _, _, hbase, _,
      hkey, _, hinstr, _, _, _, htools, _, _, _, _, _, hloops⟩ :=
    handleExistingAgentSelected_appends "u1"
      { props := { id := some "orig", name := some "helper", selectedProviderId := some "",
                   litellm_model_string := some "o4-mini-2025-04-16",
                   litellm_api_key := some "", maxLoops := some 0 },
        childAgents := [] }
      { toFormState := initFromData {}
        childAgents := [{ props := { id := some "c1", name := some "first" },
                          childAgents := [] }]
        maxLoops := 3, editingChild := none }
  exact ⟨node, happ, hid, hname, htype (Or.inl rfl), hprov (Or.inr rfl),
    hmodel "o4-mini-2025-04-16" rfl (by decide), hbase (Or.inl rfl), hkey (Or.inr rfl),
    hinstr rfl, htools rfl, hloops (Or.inr rfl)⟩

theorem handleSaveChildAgent_editing (uuid : String) (data : ChildAgent) (st : AgentFormState)
    (e : ChildAgent) (eid : String) (hedit : st.editingChild = some e)
    (hid : e.props.id = some eid) (hne : eid ≠ "") :
    (handleSaveChildAgent uuid data st).childAgents =
      st.childAgents.map (fun c =>
        if c.props.id = some eid then { data with props := { data.props with id := some eid } }
        else c) := by
  unfold handleSaveChildAgent
  simp [hedit, hid, orNull, truthy, hne]

theorem handleSaveChildAgent_adding (uuid : String) (data : ChildAgent) (st : AgentFormState)
    (hedit : st.editingChild = none) :
    (handleSaveChildAgent uuid data st).childAgents =
      st.childAgents ++
        [{ data with
           props := { data.props with
                      id := some uuid
                      agentType := some (orElse data.props.agentType "Agent") } }] := by
  unfold handleSaveChildAgent
  simp [hedit]

/-- C24. The child-list operations preserve order. A confirmed removal of
`childId` yields the children whose id differs from it, as a sublist of the
children held, and the children themselves when none has that id. Saving
the child being edited, whose id is `eid`, yields a list of the same length
that holds the replacement, with the id `eid`, at every position whose child
has the id `eid` and the child held at every other position. Saving a new
child yields the children held followed by the new child. -/
theorem child_operations_preserve_order (uuid : String) (data : ChildAgent)
    (st : AgentFormState) (childId : String) :
    ((handleDeleteChildAgent true childId st).childAgents =
        st.childAgents.filter (fun c => c.props.id ≠ some childId) ∧
      List.Sublist (handleDeleteChildAgent true childId st).childAgents st.childAgents ∧
      ((∀ c ∈ st.childAgents, c.props.id ≠ some childId) →
        (handleDeleteChildAgent true childId st).childAgents = st.childAgents)) ∧
    (∀ (e : ChildAgent) (eid : String), st.editingChild = some e → e.props.id = some eid →
      eid ≠ "" →
      (handleSaveChildAgent uuid data st).childAgents.length = st.childAgents.length ∧
      ∀ i : Nat,
        (handleSaveChildAgent uuid data st).childAgents[i]? =
          (st.childAgents[i]?).map (fun c =>
            if c.props.id = some eid then
              { data with props := { data.props with id := some eid } }
            else c)) ∧
    (st.editingChild = none →
      ∃ node : ChildAgent,
        (handleSaveChildAgent uuid data st).childAgents = st.childAgents ++ [node] ∧
        node.props.id = some uuid ∧ node.childAgents = data.childAgents ∧
        node.props.name = data.props.name) := by
  refine ⟨⟨?_, ?_, ?_⟩, ?_, ?_⟩
  · simp [handleDeleteChildAgent]
  · simp only [handleDeleteChildAgent, if_true]
    exact List.filter_sublist _
  · intro h
    simp only [handleDeleteChildAgent, if_true]
    exact List.filter_eq_self.mpr (fun c hc => by simpa using h c hc)
  · intro e eid hedit hid hne
    rw [handleSaveChildAgent_editing uuid data st e eid hedit hid hne]
    refine ⟨List.length_map _ _, fun i => ?_⟩
    rw [List.getElem?_map]
  · intro hedit
    exact ⟨_, handleSaveChildAgent_adding uuid data st hedit, rfl, rfl, rfl⟩

/-- A list of two children in which the first is being edited. -/
theorem child_operations_preserve_order_witness :
    (handleSaveChildAgent "u9" { props := { name := some "new" }, childAgents := [] }
        { toFormState := initFromData { name := some "seq", agentType := some "SequentialAgent" }
          childAgents :=
            [{ props := { id := some "a", name := some "one" }, childAgents := [] },
             { props := { id := some "b", name := some "two" }, childAgents := [] }]
          maxLoops := 3
          editingChild :=
            some { props := { id := some "a", name := some "one" }, childAgents := [] }
        }).childAgents.length =
      ([{ props := { id := some "a", name := some "one" }, childAgents := [] },
        { props := { id := some "b", name := some "two" }, childAgents := [] }] :
        List ChildAgent).length :=
  ((child_operations_preserve_order "u9" { props := { name := some "new" }, childAgents := [] }
    { toFormState := initFromData { name := some "seq", agentType := some "SequentialAgent" }
      childAgents :=
        [{ props := { id := some "a", name := some "one" }, childAgents := [] },
         { props := { id := some "b", name := some "two" }, childAgents := [] }]
      maxLoops := 3
      editingChild :=
        some { props := { id := some "a", name := some "one" }, childAgents := [] } }
    "a").2.1
    { props := { id := some "a", name := some "one" }, childAgents := [] } "a" rfl rfl
    (by decide)).1

/-! ## The send button -/

/-- C25. Code divergence: the flag `hasNewContextToProcess` disagrees with
what `sendMessage` finds. On the timeline user, agent, context, user, agent
the flag is true although no context is unconsumed, so the send button is
enabled for an empty message and the handler returns early; on the timeline
error, context the flag is false although a context item is unconsumed, so
the send button is disabled for an empty message that the handler would
send. -/
theorem hasNewContextToProcess_disagrees :
    hasNewContextToProcess
      [{ type := .user, timestamp := 1, text := some "q" },
       { type := .agent, timestamp := 2, text := some "a" },
       { type := .stuffed_context, timestamp := 3
         items := some [{ name := "x", content := "y" }] },
       { type := .user, timestamp := 4, text := some "q2" },
       { type := .agent, timestamp := 5, text := some "a2" }] = true ∧
    activeContextItems
      [{ type := .user, timestamp := 1, text := some "q" },
       { type := .agent, timestamp := 2, text := some "a" },
       { type := .stuffed_context, timestamp := 3
         items := some [{ name := "x", content := "y" }] },
       { type := .user, timestamp := 4, text := some "q2" },
       { type := .agent, timestamp := 5, text := some "a2" }] = [] ∧
    sendButtonDisabled false false
      { RunnerState.initial with
        conversation :=
          [{ type := .user, timestamp := 1, text := some "q" },
           { type := .agent, timestamp := 2, text := some "a" },
           { type := .stuffed_context, timestamp := 3
             items := some [{ name := "x", content := "y" }] },
           { type := .user, timestamp := 4, text := some "q2" },
           { type := .agent, timestamp := 5, text := some "a2" }] } = false ∧
    sendMessage false 6
      { RunnerState.initial with
        conversation :=
          [{ type := .user, timestamp := 1, text := some "q" },
           { type := .agent, timestamp := 2, text := some "a" },
           { type := .stuffed_context, timestamp := 3
             items := some [{ name := "x", content := "y" }] },
           { type := .user, timestamp := 4, text := some "q2" },
           { type := .agent, timestamp := 5, text := some "a2" }] } = none ∧
    hasNewContextToProcess
      [{ type := .error, timestamp := 1, text := some "Context Fetch Error: timeout" },
       { type := .stuffed_context, timestamp := 2
         items := some [{ name := "x", content := "y" }] }] = false ∧
    activeContextItems
      [{ type := .error, timestamp := 1, text := some "Context Fetch Error: timeout" },
       { type := .stuffed_context, timestamp := 2
         items := some [{ name := "x", content := "y" }] }] =
      [{ name := "x", content := "y" }] ∧
    sendButtonDisabled false false
      { RunnerState.initial with
        conversation :=
          [{ type := .error, timestamp := 1, text := some "Context Fetch Error: timeout" },
           { type := .stuffed_context, timestamp := 2
             items := some [{ name := "x", content := "y" }] }] } = true := by
  decide

/-! ## Artifact updates of agent messages -/

theorem parseHistory_artifactUpdates (parseEvents : String → Option (List Event))
    (parseItems : String → Option (List ContextItem)) (r : HistoricalRunData)
    (h : ¬ (eventsParse parseEvents r = true ∧ contextParseFails parseItems r = true)) :
    (parseHistory parseEvents parseItems r).artifactUpdatesForHistorical =
      extractArtifactUpdates (some (parseHistory parseEvents parseItems r).agentEvents) := by
  by_cases hev : eventsParse parseEvents r = true
  · have hctx : contextParseFails parseItems r = false := by
      cases hc : contextParseFails parseItems r with
      | false => rfl
      | true => exact absurd ⟨hev, hc⟩ h
    unfold eventsParse at hev
    unfold contextParseFails at hctx
    unfold parseHistory
    by_cases ht : truthy r.outputEventsRaw = true
    · simp only [ht, Bool.not_true, Bool.false_or] at hev
      obtain ⟨evs, hevs⟩ := Option.isSome_iff_exists.mp hev
      simp only [ht, if_true, hevs]
      cases hsc : r.stuffedContextItems with
      | none => rfl
      | some sc =>
        cases sc with
        | list items => rfl
        | serialized raw =>
          by_cases hraw : raw = ""
          · simp [hraw]
          · cases hp : parseItems raw with
            | none => simp [hsc, hraw, hp] at hctx
            | some items => simp [hraw, hp]
    · simp only [ht, Bool.false_eq_true, if_false]
      cases hsc : r.stuffedContextItems with
      | none => rfl
      | some sc =>
        cases sc with
        | list items => rfl
        | serialized raw =>
          by_cases hraw : raw = ""
          · simp [hraw]
          · cases hp : parseItems raw with
            | none => simp [hsc, hraw, hp] at hctx
            | some items => simp [hraw, hp]
  · have hev2 : eventsParse parseEvents r = false := by simpa using hev
    rw [parseHistory_of_events_fail parseEvents parseItems r hev2]
    decide

theorem reconstructFromHistory_agent_entry (parseEvents : String → Option (List Event))
    (parseItems : String → Option (List ContextItem)) (clock : ClockReadings)
    (r : HistoricalRunData) (e : ConversationEntry)
    (he : e ∈ reconstructFromHistory parseEvents parseItems clock r) (hty : e.type = .agent) :
    e.events = some (parseHistory parseEvents parseItems r).agentEvents ∧
    e.artifactUpdates = (parseHistory parseEvents parseItems r).artifactUpdatesForHistorical := by
  cases hs : (parseHistory parseEvents parseItems r).stuffedContextFromHistory with
  | none =>
    rw [reconstructFromHistory_without_context parseEvents parseItems clock r (Or.inl hs)] at he
    simp only [List.mem_cons, List.mem_singleton, List.not_mem_nil, or_false] at he
    rcases he with rfl | rfl
    · simp at hty
    · exact ⟨rfl, rfl⟩
  | some items =>
    cases items with
    | nil =>
      rw [reconstructFromHistory_without_context parseEvents parseItems clock r (Or.inr hs)]
        at he
      simp only [List.mem_cons, List.mem_singleton, List.not_mem_nil, or_false] at he
      rcases he with rfl | rfl
      · simp at hty
      · exact ⟨rfl, rfl⟩
    | cons x xs =>
      rw [reconstructFromHistory_context_shape parseEvents parseItems clock r (x :: xs) hs
        (by simp)] at he
      simp only [List.mem_cons, List.mem_singleton, List.not_mem_nil, or_false] at he
      rcases he with rfl | rfl | rfl
      · simp at hty
      · simp at hty
      · exact ⟨rfl, rfl⟩

/-- C28. Code divergence: for a record whose events parse to one event with
the delta `{"a.txt": 1}` and whose serialized context does not parse, the
reconstructed agent message holds the synthetic error event as its event
list and the artifact updates `{"a.txt": 1}` of the discarded events, while
`extractArtifactUpdates` of its event list is none. When the events of the
same record do not parse either, the agent message holds the synthetic error
event and no artifact updates. -/
theorem reconstructFromHistory_stale_artifactUpdates :
    (reconstructFromHistory
        (fun _ => some [{ actions := some { artifact_delta := some [("a.txt", .number 1)] } }])
        (fun _ => none) { atUser := 1000, atContext := 1001, atAgent := 1002 }
        { inputMessage := some "hi", outputEventsRaw := some "[...]"
          stuffedContextItems := some (.serialized "not json") }).map
      (fun e => e.type) = [EntryType.user, EntryType.agent] ∧
    (reconstructFromHistory
        (fun _ => some [{ actions := some { artifact_delta := some [("a.txt", .number 1)] } }])
        (fun _ => none) { atUser := 1000, atContext := 1001, atAgent := 1002 }
        { inputMessage := some "hi", outputEventsRaw := some "[...]"
          stuffedContextItems := some (.serialized "not json") }).map
      (fun e => e.events) = [none, some [parseErrorEvent]] ∧
    (reconstructFromHistory
        (fun _ => some [{ actions := some { artifact_delta := some [("a.txt", .number 1)] } }])
        (fun _ => none) { atUser := 1000, atContext := 1001, atAgent := 1002 }
        { inputMessage := some "hi", outputEventsRaw := some "[...]"
          stuffedContextItems := some (.serialized "not json") }).map
      (fun e => e.artifactUpdates) = [none, some [("a.txt", VersionLabel.number 1)]] ∧
    extractArtifactUpdates (some [parseErrorEvent]) = none ∧
    (reconstructFromHistory (fun _ => none) (fun _ => none)
        { atUser := 1000, atContext := 1001, atAgent := 1002 }
        { inputMessage := some "hi", outputEventsRaw := some "[...]"
          stuffedContextItems := some (.serialized "not json") }).map
      (fun e => e.events) = [none, some [parseErrorEvent]] ∧
    (reconstructFromHistory (fun _ => none) (fun _ => none)
        { atUser := 1000, atContext := 1001, atAgent := 1002 }
        { inputMessage := some "hi", outputEventsRaw := some "[...]"
          stuffedContextItems := some (.serialized "not json") }).map
      (fun e => e.artifactUpdates) = [none, none] := by
  decide

/-- On every other path the two agree: for every agent message the runtime
produces live, and for every agent message reconstructed from a record other
than one whose events parse and whose serialized context fails to parse, the
artifact updates of the entry are `extractArtifactUpdates` of the event list
of the entry. -/
theorem agentMessage_artifactUpdates :
    (∀ (now : Int) (result : QueryResult) (st : RunnerState), result.success = true →
      ∃ e : ConversationEntry,
        (receiveOutcome now (.resolved result) st).conversation = st.conversation ++ [e] ∧
        e.type = .agent ∧ e.artifactUpdates = extractArtifactUpdates e.events) ∧
    (∀ (parseEvents : String → Option (List Event))
      (parseItems : String → Option (List ContextItem)) (clock : ClockReadings)
      (r : HistoricalRunData),
      ¬ (eventsParse parseEvents r = true ∧ contextParseFails parseItems r = true) →
      ∀ e ∈ reconstructFromHistory parseEvents parseItems clock r, e.type = .agent →
        e.artifactUpdates = extractArtifactUpdates e.events) := by
  constructor
  · intro now result st hs
    refine ⟨{ type := .agent
              text := some (orElse result.responseText "Agent responded.")
              events := some (result.events.getD [])
              timestamp := now
              queryErrorDetails := result.queryErrorDetails
              artifactUpdates := extractArtifactUpdates (some (result.events.getD [])) },
      ?_, rfl, rfl⟩
    simp [receiveOutcome, hs]
  · intro parseEvents parseItems clock r hno e he hty
    obtain ⟨h1, h2⟩ := reconstructFromHistory_agent_entry parseEvents parseItems clock r e he hty
    rw [h1, h2]
    exact parseHistory_artifactUpdates parseEvents parseItems r hno

/-- A successful response with one artifact delta, received live. -/
theorem agentMessage_artifactUpdates_witness :
    (receiveOutcome 2
        (.resolved
          { success := true
            events := some [{ actions := some { artifact_delta := some [("a.txt", .number 1)] } }] })
        RunnerState.initial).conversation.map (fun e => e.artifactUpdates) =
      (receiveOutcome 2
        (.resolved
          { success := true
            events := some [{ actions := some { artifact_delta := some [("a.txt", .number 1)] } }] })
        RunnerState.initial).conversation.map (fun e => extractArtifactUpdates e.events) := by
  obtain ⟨e, hconv, _, hau⟩ := agentMessage_artifactUpdates.1 2
    { success := true
      events := some [{ actions := some { artifact_delta := some [("a.txt", .number 1)] } }] }
    RunnerState.initial rfl
  rw [hconv]
  simp [RunnerState.initial, hau]

/-! ## Consumption of context in a live run -/

theorem recentContextMessages_append_singleton (conv : List ConversationEntry)
    (e : ConversationEntry) :
    recentContextMessages (conv ++ [e]) =
      if isProperMessage e = true then [] else recentContextMessages conv ++ [e] := by
  unfold recentContextMessages
  rw [List.reverse_append, List.reverse_singleton, List.singleton_append, List.takeWhile_cons]
  by_cases hp : isProperMessage e = true
  · simp [hp]
  · simp [hp]

theorem consumedFrom_le_length (conv : List ConversationEntry) :
    consumedFrom conv ≤ conv.length := by
  unfold consumedFrom
  omega

theorem consumedFrom_append_singleton (conv : List ConversationEntry) (e : ConversationEntry) :
    consumedFrom (conv ++ [e]) =
      if isProperMessage e = true then conv.length + 1 else consumedFrom conv := by
  unfold consumedFrom
  rw [recentContextMessages_append_singleton]
  by_cases hp : isProperMessage e = true
  · simp [hp]
  · simp only [hp, if_false, List.length_append, List.length_singleton, Bool.false_eq_true]
    omega

theorem consumedFrom_le_append (l conv : List ConversationEntry) :
    consumedFrom conv ≤ consumedFrom (conv ++ l) := by
  induction l generalizing conv with
  | nil => simp
  | cons e l ih =>
    have hstep : consumedFrom conv ≤ consumedFrom (conv ++ [e]) := by
      rw [consumedFrom_append_singleton]
      split_ifs
      · have := consumedFrom_le_length conv
        omega
      · exact le_refl _
    have := ih (conv ++ [e])
    rw [List.append_assoc, List.singleton_append] at this
    exact le_trans hstep this

theorem recentContextMessages_eq_drop (conv : List ConversationEntry) :
    recentContextMessages conv = conv.drop (consumedFrom conv) := by
  induction conv using List.reverseRecOn with
  | nil => rfl
  | append_singleton conv e ih =>
    rw [consumedFrom_append_singleton, recentContextMessages_append_singleton]
    by_cases hp : isProperMessage e = true
    · simp [hp]
    · simp only [hp, if_false, Bool.false_eq_true]
      rw [List.drop_append_of_le_length (consumedFrom_le_length conv), ih]

theorem liveStep_appends (st : RunnerState) (step : LiveStep) :
    ∃ l : List ConversationEntry, (liveStep st step).conversation = st.conversation ++ l := by
  cases step with
  | appendContext now fetch =>
    cases fetch with
    | fetched newContextItems =>
      simp only [liveStep, handleContextSubmit]
      split_ifs
      · exact ⟨_, List.append_assoc _ _ _⟩
      · exact ⟨_, rfl⟩
    | thrown message => exact ⟨_, rfl⟩
  | send now text =>
    simp only [liveStep]
    cases hs : sendMessage false now { st with message := text } with
    | none => exact ⟨[], by simp⟩
    | some p =>
      obtain ⟨req, st1⟩ := p
      obtain ⟨_, _, hst1⟩ := sendMessage_some now _ req st1 hs
      exact ⟨_, by rw [hst1]⟩
  | receive now outcome =>
    cases outcome with
    | thrown message => exact ⟨_, rfl⟩
    | resolved result =>
      by_cases hs : result.success = true
      · simp only [liveStep, receiveOutcome, hs, if_true]
        exact ⟨_, rfl⟩
      · simp only [liveStep, receiveOutcome, hs, if_false]
        exact ⟨_, rfl⟩

theorem liveStep_send_consumedFrom (st : RunnerState) (now : Int) (text : String)
    (p : QueryRequest × RunnerState)
    (hs : sendMessage false now { st with message := text } = some p) :
    consumedFrom (liveStep st (.send now text)).conversation = st.conversation.length + 1 := by
  obtain ⟨req, st1⟩ := p
  obtain ⟨_, _, hst1⟩ := sendMessage_some now _ req st1 hs
  simp only [liveStep, hs]
  rw [hst1]
  show consumedFrom (st.conversation ++ [_]) = _
  rw [consumedFrom_append_singleton]
  simp [isProperMessage]

theorem runConsumptions_ordered (steps : List LiveStep) (st : RunnerState) :
    (∀ I ∈ runConsumptions st steps, consumedFrom st.conversation ≤ I.1 ∧ I.1 ≤ I.2) ∧
    List.Pairwise (fun I J => I.2 ≤ J.1) (runConsumptions st steps) := by
  induction steps generalizing st with
  | nil => exact ⟨fun I hI => by simp [runConsumptions] at hI, List.Pairwise.nil⟩
  | cons step steps ih =>
    obtain ⟨hbound, hpair⟩ := ih (liveStep st step)
    obtain ⟨l, hl⟩ := liveStep_appends st step
    have hmono : consumedFrom st.conversation ≤ consumedFrom (liveStep st step).conversation := by
      rw [hl]
      exact consumedFrom_le_append l st.conversation
    cases hc : stepConsumption st step with
    | none =>
      simp only [runConsumptions, hc, Option.toList, List.nil_append]
      exact ⟨fun I hI => ⟨le_trans hmono (hbound I hI).1, (hbound I hI).2⟩, hpair⟩
    | some I0 =>
      simp only [runConsumptions, hc, Option.toList, List.singleton_append]
      cases step with
      | appendContext now fetch => simp [stepConsumption] at hc
      | receive now outcome => simp [stepConsumption] at hc
      | send now text =>
        simp only [stepConsumption] at hc
        cases hs : sendMessage false now { st with message := text } with
        | none => simp [hs] at hc
        | some p =>
          simp only [hs, Option.some.injEq] at hc
          subst hc
          have hfloor := liveStep_send_consumedFrom st now text p hs
          refine ⟨?_, ?_⟩
          · intro I hI
            rcases List.mem_cons.mp hI with rfl | hI
            · exact ⟨le_refl _, consumedFrom_le_length _⟩
            · exact ⟨le_trans hmono (hbound I hI).1, (hbound I hI).2⟩
          · refine List.Pairwise.cons ?_ hpair
            intro J hJ
            have := (hbound J hJ).1
            rw [hfloor] at this
            show st.conversation.length ≤ J.1
            omega

/-- C29. Each context item is consumed at most once. A request carries the
items of the context bundles at the timeline positions from the first entry
after the last user, agent or error entry up to the end of the timeline;
once the handler has appended its user message no context of the timeline
is unconsumed; every step of a live run only appends to the timeline; and
for every sequence of context, send and response steps the ranges of
positions attached to the requests are pairwise disjoint, each ending
before the next begins. -/
theorem context_consumed_at_most_once :
    (∀ (now : Int) (st : RunnerState) (req : QueryRequest) (st1 : RunnerState),
      sendMessage false now st = some (req, st1) →
      req.activeContextItems =
        (st.conversation.drop (consumedFrom st.conversation)).flatMap bundleItems ∧
      activeContextItems st1.conversation = [] ∧
      hasUnconsumedContext st1.conversation = false ∧
      consumedFrom st1.conversation = st1.conversation.length) ∧
    (∀ (st : RunnerState) (step : LiveStep),
      st.conversation <+: (liveStep st step).conversation) ∧
    (∀ (st : RunnerState) (steps : List LiveStep),
      (∀ I ∈ runConsumptions st steps, I.1 ≤ I.2) ∧
      List.Pairwise (fun I J => I.2 ≤ J.1) (runConsumptions st steps)) := by
  refine ⟨?_, ?_, ?_⟩
  · intro now st req st1 h
    obtain ⟨_, hreq, hst1⟩ := sendMessage_some now st req st1 h
    have hrecent : recentContextMessages st1.conversation = [] := by
      rw [hst1]
      show recentContextMessages (st.conversation ++ [_]) = []
      rw [recentContextMessages_append_singleton]
      simp [isProperMessage]
    refine ⟨?_, ?_, ?_, ?_⟩
    · rw [hreq]
      show activeContextItems st.conversation = _
      unfold activeContextItems
      rw [recentContextMessages_eq_drop]
      rfl
    · unfold activeContextItems
      rw [hrecent]
      rfl
    · unfold hasUnconsumedContext
      rw [hrecent]
      rfl
    · unfold consumedFrom
      rw [hrecent]
      rfl
  · intro st step
    obtain ⟨l, hl⟩ := liveStep_appends st step
    rw [hl]
    exact List.prefix_append _ _
  · intro st steps
    obtain ⟨hbound, hpair⟩ := runConsumptions_ordered steps st
    exact ⟨fun I hI => (hbound I hI).2, hpair⟩

/-- A run that stuffs a context, sends, receives, stuffs another context and
sends again: the first request takes position 0 and the second position 3. -/
theorem context_consumed_at_most_once_witness :
    runConsumptions RunnerState.initial
        [.appendContext 1 (.fetched [{ name := "a", content := "A" }]),
         .send 2 "q",
         .receive 3 (.resolved { success := true, responseText := some "r" }),
         .appendContext 4 (.fetched [{ name := "b", content := "B" }]),
         .send 5 ""] = [(0, 1), (3, 4)] ∧
    activeContextItems
      (runLive RunnerState.initial
        [.appendContext 1 (.fetched [{ name := "a", content := "A" }]),
         .send 2 "q"]).conversation = [] := by
  refine ⟨by decide, ?_⟩
  exact (context_consumed_at_most_once.1 2
    { (handleContextSubmit 1 (.fetched [{ name := "a", content := "A" }])
        RunnerState.initial) with message := "q" }
    _ _ rfl).2.1

end AgentLab
